/-
Verification of the charter-party voyage-performance calculator.

This file gives a shallow embedding of the two calculation variants of the
repository:
  * `process_calculation_data`  from  src/c.CPsuite.py   (lines 94-263)
  * `perform_calculations`      from  src/charterparty_app.py (lines 125-209)
together with the input-acceptance behaviour of the CP-term forms, and proves
or refutes the frozen specification claims about them.

Modelling conventions:
  * Cells of the uploaded table are `Val`: a string, a rational number, or
    missing (pandas NaN).  Numbers are rationals; the Python floats in scope
    here are only added, subtracted, multiplied, divided and compared, so
    exact rational arithmetic is the intended real-number semantics.
  * A pandas DataFrame is a `Table`: a list of column names plus a list of
    rows; a row is an association list from column name to `Val`.  A key
    absent from a row reads as `Val.missing` (NaN).
  * `pd.to_numeric(col, errors='coerce')` is `coerceNum` mapped over the
    column: numbers survive, everything else becomes NaN.  Cells holding
    numeric text are modelled as already-numeric (`Val.num`): the pandas
    string-to-number parser is external-library behaviour, not repository
    code; what the repository relies on is only that unparsable cells
    become NaN.
  * `datetime` cells are modelled as already-parsed instants (`Val.num`);
    pandas comparisons against NaT are false, which `excludedBy` mirrors.
  * Python raises `ZeroDivisionError` on a scalar division by zero.  In the
    embedded reconcilers every division the source does NOT guard has its
    denominator checked up front and the run returns
    `Except.error CalcError.divByZero` when one is zero; this is observably
    equivalent to raising at the first offending division because all the
    unguarded denominators are computed before any of them is used and the
    raised error carries no further data.  Divisions the source guards
    (`x / y if y > 0 else 0` and `x / y if y else 0`) are embedded as the
    corresponding total conditional.
  * A missing DataFrame column read by charterparty_app.py raises `KeyError`,
    embedded as `Except.error (CalcError.keyError c)`.
-/
import Mathlib


/-- A cell value of an uploaded table: a string, a (rational) number, or
missing data (pandas NaN). -/
inductive Val where
  | str : String → Val
  | num : ℚ → Val
  | missing : Val
deriving DecidableEq, Repr

/-- A table row: association list from column name to cell value. -/
abbrev Row := List (String × Val)

/-- Read a cell; a key absent from the row is missing data (NaN). -/
def getVal (r : Row) (c : String) : Val := (r.lookup c).getD Val.missing

/-- Write a cell (used to model a pandas column assignment). -/
def Row.setVal (r : Row) (c : String) (v : Val) : Row :=
  (c, v) :: r.filter (fun p => p.1 ≠ c)

/-- A row-oriented table: the DataFrame column list plus the rows. -/
structure Table where
  cols : List String
  rows : List Row
deriving DecidableEq, Repr

/-- Replace the cell of row `i`, column `c` (test harness for the
"a malformed cell contributes zero" claims; rows out of range are a no-op). -/
def updateCell (t : Table) (i : ℕ) (c : String) (v : Val) : Table :=
  { t with rows := t.rows.set i ((t.rows.getD i []).setVal c v) }

/-- Numeric reading of a cell as used by a pandas column sum: NaN and
non-numeric cells contribute `0`. -/
def valToNum : Val → ℚ
  | .num q => q
  | _ => 0

/-- `pd.to_numeric(_, errors='coerce')` on one cell: numbers survive,
strings and missing data become NaN. -/
def coerceNum : Val → Val
  | .num q => .num q
  | _ => .missing

/-- Equality comparison of a cell against a string literal
(`df[col] == 'LABEL'`): only a string cell can compare true. -/
def valEqStr (v : Val) (s : String) : Bool :=
  match v with
  | .str s2 => s2 == s
  | _ => false

/-- Membership test of a cell against string literals (`Series.isin`). -/
def valIsIn (v : Val) (ss : List String) : Bool :=
  match v with
  | .str s => ss.contains s
  | _ => false

/-- Numeric greater-than comparison of a cell against a threshold
(`df[col] > limit`): NaN or a missing field compares false. -/
def valGT (v : Val) (q : ℚ) : Bool :=
  match v with
  | .num x => q < x
  | _ => false

/-- Sum of a resolved column over a list of rows; an unresolved column
(`None`) sums to `0`, mirroring the `... if col else 0` guards. -/
def sumCol (rows : List Row) (c : Option String) : ℚ :=
  match c with
  | none => 0
  | some cn => (rows.map (fun r => valToNum (getVal r cn))).sum

/-- Apply the numeric coercion to the listed columns of a row
(`df[col] = pd.to_numeric(df[col], errors='coerce')` for each). -/
def coerceRow (cs : List String) (r : Row) : Row :=
  cs.foldl (fun r c => r.setVal c (coerceNum (getVal r c))) r

/-- One charter-party term as entered in either form
(`{'speed': .., 'me_consumption': .., 'ae_consumption': ..}`). -/
structure CPTerm where
  speed : ℚ
  me_consumption : ℚ
  ae_consumption : ℚ
deriving DecidableEq, Repr

/-- The weather definition (c.CPsuite.py session keys `beaufort_scale`,
`wave_height`, `include_current`; same data in charterparty_app.py). -/
structure WeatherDef where
  beaufort_scale : ℚ
  wave_height : ℚ
  include_current : Bool
deriving DecidableEq, Repr

/-- One excluded period (`{'from': .., 'to': ..}` resp. `{'start': .., 'end': ..}`),
with instants modelled as rationals. -/
structure ExclusionPeriod where
  start : ℚ
  stop : ℚ
deriving DecidableEq, Repr

/-- A datetime cell lies inside at least one excluded period
(c.CPsuite.py lines 140-146: closed interval, union over the periods;
`if start and end` is always true for datetime objects, and a NaT cell
compares false against both bounds). -/
def excludedBy (ep : List ExclusionPeriod) (v : Val) : Bool :=
  ep.any (fun p =>
    match v with
    | .num t => decide (p.start ≤ t) && decide (t ≤ p.stop)
    | _ => false)

/-- The results dictionary built by both calculation variants
(c.CPsuite.py lines 236-261; charterparty_app.py lines 187-209 omits the
three `time_at/max_time/min_time` keys from its dictionary but computes
the same quantities). -/
structure Results where
  total_distance : ℚ
  total_steaming_time : ℚ
  voyage_avg_speed : ℚ
  good_wx_distance : ℚ
  good_wx_time : ℚ
  good_wx_speed : ℚ
  good_wx_fo_cons : ℚ
  good_wx_fo_rate_hr : ℚ
  good_wx_fo_rate_day : ℚ
  bad_wx_distance : ℚ
  bad_wx_time : ℚ
  bad_wx_speed : ℚ
  bad_wx_fo_cons : ℚ
  total_me_fuel : ℚ
  entire_voyage_cons : ℚ
  max_warranted_fo : ℚ
  min_warranted_fo : ℚ
  fuel_overconsumption : ℚ
  fuel_saving : ℚ
  time_at_good_wx_speed : ℚ
  max_time_at_warranted_spd : ℚ
  min_time_at_warranted_spd : ℚ
  time_gained : ℚ
  time_lost : ℚ

/-- The ways a calculation run can abort with a Python exception or an
explicit reported error. -/
inductive CalcError where
  | noCpTerms
  | keyError : String → CalcError
  | divByZero
deriving DecidableEq, Repr

/-- Project the successful result of a run, if any. -/
def exOk : Except CalcError Results → Option Results
  | .ok r => some r
  | .error _ => none

/-- Project the error of a run, if any. -/
def exErr : Except CalcError Results → Option CalcError
  | .ok _ => none
  | .error e => some e

/-- A run completed without raising. -/
def exIsOk : Except CalcError Results → Bool
  | .ok _ => true
  | .error _ => false

/-- Alias candidates for the canonical `distance` field (line 101). -/
def distanceAliases : List String :=
  ["distance", "distance_travelled", "distance_travelled_actual", "distance_nm"]

/-- Alias candidates for the canonical `time_hrs` field (line 102). -/
def timeAliases : List String :=
  ["steaming_time_hrs", "time_hrs", "hours", "steaming_hours"]

/-- Alias candidates for the canonical `me_fuel` field (line 103). -/
def fuelAliases : List String :=
  ["me_fuel_consumed", "me_fuel", "fuel_consumed", "fuel_consumption"]

/-- Alias candidates for the canonical `weather_status` field (line 104). -/
def weatherAliases : List String :=
  ["day_status", "weather_status", "weather_condition"]

/-- Alias candidates for the canonical `event_type` field (line 105). -/
def eventAliases : List String := ["event_type", "event"]

/-- First alias present among the table's columns (lines 109-114). -/
def resolveCol (df : Table) (poss : List String) : Option String :=
  poss.find? (fun c => df.cols.contains c)

def cps_distanceCol (df : Table) : Option String := resolveCol df distanceAliases

def cps_timeCol (df : Table) : Option String := resolveCol df timeAliases

def cps_fuelCol (df : Table) : Option String := resolveCol df fuelAliases

def cps_weatherCol (df : Table) : Option String := resolveCol df weatherAliases

def cps_eventCol (df : Table) : Option String := resolveCol df eventAliases

/-- The resolved columns, i.e. the values of `column_dict` (line 109);
these are the columns the numeric coercion of lines 151-153 runs over. -/
def cps_resolvedCols (df : Table) : List String :=
  [cps_distanceCol df, cps_timeCol df, cps_fuelCol df,
   cps_weatherCol df, cps_eventCol df].filterMap id

/-- Event types retained by the filter (line 133 resp. line 136). -/
def eventKeep : List String := ["NOON AT SEA", "COSP", "EOSP"]

/-- Warranted speed: first CP term, or the fabricated default `13.0`
when the term list is empty (lines 117-125). -/
def warrantedSpeedOf : List CPTerm → ℚ
  | [] => 13
  | t :: _ => t.speed

/-- Warranted consumption: first CP term, or the fabricated default `20.0`
when the term list is empty (lines 117-125). -/
def warrantedConsumptionOf : List CPTerm → ℚ
  | [] => 20
  | t :: _ => t.me_consumption

/-- Fixed fuel tolerance, percent (line 128). -/
def fuel_tolerance_percent : ℚ := 5

/-- Fixed speed tolerance, knots (line 129). -/
def speed_tolerance_knots : ℚ := 1 / 2

/-- Rows surviving the event-type filter (lines 132-133); with no resolved
event column every row passes. -/
def cps_eventRows (df : Table) : List Row :=
  match cps_eventCol df with
  | some ec => df.rows.filter (fun r => valIsIn (getVal r ec) eventKeep)
  | none => df.rows

/-- Rows surviving the exclusion-period filter (lines 136-148); it only runs
when the table has a column literally named `datetime`. -/
def cps_filteredRows (df : Table) (ep : List ExclusionPeriod) : List Row :=
  if df.cols.contains "datetime" then
    (cps_eventRows df).filter (fun r => !excludedBy ep (getVal r "datetime"))
  else cps_eventRows df

/-- Surviving rows after the numeric coercion of every resolved column
(lines 150-153) — note this coerces the resolved weather-status and
event-type columns too. -/
def cps_rows (df : Table) (ep : List ExclusionPeriod) : List Row :=
  (cps_filteredRows df ep).map (coerceRow (cps_resolvedCols df))

def cps_totalDistance (df : Table) (ep : List ExclusionPeriod) : ℚ :=
  sumCol (cps_rows df ep) (cps_distanceCol df)

def cps_totalTime (df : Table) (ep : List ExclusionPeriod) : ℚ :=
  sumCol (cps_rows df ep) (cps_timeCol df)

def cps_totalFuel (df : Table) (ep : List ExclusionPeriod) : ℚ :=
  sumCol (cps_rows df ep) (cps_fuelCol df)

def cps_voyageAvgSpeed (df : Table) (ep : List ExclusionPeriod) : ℚ :=
  if 0 < cps_totalTime df ep then cps_totalDistance df ep / cps_totalTime df ep else 0

/-- Threshold classification used when no weather-status column resolved
(lines 172-187): default good; bad when wind exceeds the Beaufort limit or
wave height exceeds its limit (both columns must exist for that check to
run), or when the current factor is included, a `current` column exists and
current exceeds 1.0. -/
def cps_isGoodWeather (df : Table) (wd : WeatherDef) (r : Row) : Bool :=
  let windWaveBad :=
    if df.cols.contains "wind_force" && df.cols.contains "wave_height" then
      valGT (getVal r "wind_force") wd.beaufort_scale ||
      valGT (getVal r "wave_height") wd.wave_height
    else false
  let currentBad :=
    if wd.include_current && df.cols.contains "current" then
      valGT (getVal r "current") 1
    else false
  !(windWaveBad || currentBad)

/-- Good-weather rows (lines 168-187): the precomputed status column is
compared verbatim when resolved (after it has been numerically coerced),
otherwise the threshold rules apply. -/
def cps_goodDays (df : Table) (wd : WeatherDef) (ep : List ExclusionPeriod) : List Row :=
  match cps_weatherCol df with
  | some wc => (cps_rows df ep).filter (fun r => valEqStr (getVal r wc) "GOOD WEATHER DAY")
  | none => (cps_rows df ep).filter (cps_isGoodWeather df wd)

/-- Bad-weather rows (lines 168-187). -/
def cps_badDays (df : Table) (wd : WeatherDef) (ep : List ExclusionPeriod) : List Row :=
  match cps_weatherCol df with
  | some wc => (cps_rows df ep).filter (fun r => valEqStr (getVal r wc) "BAD WEATHER DAY")
  | none => (cps_rows df ep).filter (fun r => !cps_isGoodWeather df wd r)

def cps_goodDistance (df : Table) (wd : WeatherDef) (ep : List ExclusionPeriod) : ℚ :=
  sumCol (cps_goodDays df wd ep) (cps_distanceCol df)

def cps_goodTime (df : Table) (wd : WeatherDef) (ep : List ExclusionPeriod) : ℚ :=
  sumCol (cps_goodDays df wd ep) (cps_timeCol df)

def cps_goodFuel (df : Table) (wd : WeatherDef) (ep : List ExclusionPeriod) : ℚ :=
  sumCol (cps_goodDays df wd ep) (cps_fuelCol df)

/-- `good_speed` (line 193, zero-guarded). -/
def cps_goodSpeed (df : Table) (wd : WeatherDef) (ep : List ExclusionPeriod) : ℚ :=
  if 0 < cps_goodTime df wd ep then cps_goodDistance df wd ep / cps_goodTime df wd ep else 0

/-- `good_fo_hr` (line 194, zero-guarded). -/
def cps_goodFoHr (df : Table) (wd : WeatherDef) (ep : List ExclusionPeriod) : ℚ :=
  if 0 < cps_goodTime df wd ep then cps_goodFuel df wd ep / cps_goodTime df wd ep else 0

/-- `good_fo_day` (line 195). -/
def cps_goodFoDay (df : Table) (wd : WeatherDef) (ep : List ExclusionPeriod) : ℚ :=
  cps_goodFoHr df wd ep * 24

def cps_badDistance (df : Table) (wd : WeatherDef) (ep : List ExclusionPeriod) : ℚ :=
  sumCol (cps_badDays df wd ep) (cps_distanceCol df)

def cps_badTime (df : Table) (wd : WeatherDef) (ep : List ExclusionPeriod) : ℚ :=
  sumCol (cps_badDays df wd ep) (cps_timeCol df)

def cps_badFuel (df : Table) (wd : WeatherDef) (ep : List ExclusionPeriod) : ℚ :=
  sumCol (cps_badDays df wd ep) (cps_fuelCol df)

/-- `bad_speed` (line 201, zero-guarded). -/
def cps_badSpeed (df : Table) (wd : WeatherDef) (ep : List ExclusionPeriod) : ℚ :=
  if 0 < cps_badTime df wd ep then cps_badDistance df wd ep / cps_badTime df wd ep else 0

/-- `fuel_tolerance_mt` (line 204). -/
def fuelToleranceMt (cp_terms : List CPTerm) : ℚ :=
  warrantedConsumptionOf cp_terms * (fuel_tolerance_percent / 100)

/-- `warranted_plus_tol` (line 205). -/
def warrantedPlusTol (cp_terms : List CPTerm) : ℚ :=
  warrantedConsumptionOf cp_terms + fuelToleranceMt cp_terms

/-- `warranted_minus_tol` (line 206). -/
def warrantedMinusTol (cp_terms : List CPTerm) : ℚ :=
  warrantedConsumptionOf cp_terms - fuelToleranceMt cp_terms

/-- The effective-speed clamp of c.CPsuite.py (lines 208-214): observed good
speed when strictly inside the warranted band, the upper band edge when
strictly above it, the lower band edge otherwise. -/
def effectiveSpeed (good_speed warranted_speed : ℚ) : ℚ :=
  if good_speed < warranted_speed + speed_tolerance_knots ∧
     warranted_speed - speed_tolerance_knots < good_speed then good_speed
  else if warranted_speed + speed_tolerance_knots < good_speed then
    warranted_speed + speed_tolerance_knots
  else warranted_speed - speed_tolerance_knots

def cps_effectiveSpeed (df : Table) (cp_terms : List CPTerm) (wd : WeatherDef)
    (ep : List ExclusionPeriod) : ℚ :=
  effectiveSpeed (cps_goodSpeed df wd ep) (warrantedSpeedOf cp_terms)

/-- `entire_voyage_cons` (line 217): guarded by `good_speed > 0`, and computed
from the unclamped observed good speed, not the effective speed. -/
def cps_entireVoyageCons (df : Table) (wd : WeatherDef)
    (ep : List ExclusionPeriod) : ℚ :=
  if 0 < cps_goodSpeed df wd ep then
    cps_totalDistance df ep / cps_goodSpeed df wd ep * (cps_goodFoDay df wd ep / 24)
  else 0

/-- The unguarded denominators of lines 220-221 and 228-230 (Python would
raise `ZeroDivisionError` when one of them is zero; the quotient values below
are only exposed when this holds). -/
def cps_divSafe (df : Table) (cp_terms : List CPTerm) (wd : WeatherDef)
    (ep : List ExclusionPeriod) : Prop :=
  cps_effectiveSpeed df cp_terms wd ep ≠ 0 ∧
  warrantedSpeedOf cp_terms - speed_tolerance_knots ≠ 0 ∧
  warrantedSpeedOf cp_terms + speed_tolerance_knots ≠ 0

instance (df : Table) (cp_terms : List CPTerm) (wd : WeatherDef)
    (ep : List ExclusionPeriod) : Decidable (cps_divSafe df cp_terms wd ep) :=
  inferInstanceAs (Decidable (_ ∧ _ ∧ _))

/-- `max_warranted_fo` (line 220). -/
def cps_maxWarrantedFo (df : Table) (cp_terms : List CPTerm) (wd : WeatherDef)
    (ep : List ExclusionPeriod) : ℚ :=
  cps_totalDistance df ep / cps_effectiveSpeed df cp_terms wd ep *
    (warrantedPlusTol cp_terms / 24)

/-- `min_warranted_fo` (line 221). -/
def cps_minWarrantedFo (df : Table) (cp_terms : List CPTerm) (wd : WeatherDef)
    (ep : List ExclusionPeriod) : ℚ :=
  cps_totalDistance df ep / cps_effectiveSpeed df cp_terms wd ep *
    (warrantedMinusTol cp_terms / 24)

/-- `time_at_good_wx_speed` (line 228). -/
def cps_timeAtGoodWxSpeed (df : Table) (cp_terms : List CPTerm) (wd : WeatherDef)
    (ep : List ExclusionPeriod) : ℚ :=
  cps_totalDistance df ep / cps_effectiveSpeed df cp_terms wd ep

/-- `max_time_at_warranted_spd` (line 229). -/
def cps_maxTimeAtWarrantedSpd (df : Table) (cp_terms : List CPTerm)
    (ep : List ExclusionPeriod) : ℚ :=
  cps_totalDistance df ep / (warrantedSpeedOf cp_terms - speed_tolerance_knots)

/-- `min_time_at_warranted_spd` (line 230). -/
def cps_minTimeAtWarrantedSpd (df : Table) (cp_terms : List CPTerm)
    (ep : List ExclusionPeriod) : ℚ :=
  cps_totalDistance df ep / (warrantedSpeedOf cp_terms + speed_tolerance_knots)

/-- The results dictionary of lines 236-261. -/
def cps_results (df : Table) (cp_terms : List CPTerm) (wd : WeatherDef)
    (ep : List ExclusionPeriod) : Results :=
  { total_distance := cps_totalDistance df ep
    total_steaming_time := cps_totalTime df ep
    voyage_avg_speed := cps_voyageAvgSpeed df ep
    good_wx_distance := cps_goodDistance df wd ep
    good_wx_time := cps_goodTime df wd ep
    good_wx_speed := cps_goodSpeed df wd ep
    good_wx_fo_cons := cps_goodFuel df wd ep
    good_wx_fo_rate_hr := cps_goodFoHr df wd ep
    good_wx_fo_rate_day := cps_goodFoDay df wd ep
    bad_wx_distance := cps_badDistance df wd ep
    bad_wx_time := cps_badTime df wd ep
    bad_wx_speed := cps_badSpeed df wd ep
    bad_wx_fo_cons := cps_badFuel df wd ep
    total_me_fuel := cps_totalFuel df ep
    entire_voyage_cons := cps_entireVoyageCons df wd ep
    max_warranted_fo := cps_maxWarrantedFo df cp_terms wd ep
    min_warranted_fo := cps_minWarrantedFo df cp_terms wd ep
    fuel_overconsumption :=
      max 0 (cps_entireVoyageCons df wd ep - cps_maxWarrantedFo df cp_terms wd ep)
    fuel_saving :=
      max 0 (cps_minWarrantedFo df cp_terms wd ep - cps_entireVoyageCons df wd ep)
    time_at_good_wx_speed := cps_timeAtGoodWxSpeed df cp_terms wd ep
    max_time_at_warranted_spd := cps_maxTimeAtWarrantedSpd df cp_terms ep
    min_time_at_warranted_spd := cps_minTimeAtWarrantedSpd df cp_terms ep
    time_gained :=
      max 0 (cps_minTimeAtWarrantedSpd df cp_terms ep - cps_timeAtGoodWxSpeed df cp_terms wd ep)
    time_lost :=
      max 0 (cps_timeAtGoodWxSpeed df cp_terms wd ep - cps_maxTimeAtWarrantedSpd df cp_terms ep) }

/-- `process_calculation_data` (c.CPsuite.py lines 94-263): the whole run,
aborting with `ZeroDivisionError` when an unguarded denominator is zero. -/
def process_calculation_data (df : Table) (cp_terms : List CPTerm) (wd : WeatherDef)
    (ep : List ExclusionPeriod) : Except CalcError Results :=
  if cps_divSafe df cp_terms wd ep then
    Except.ok (cps_results df cp_terms wd ep)
  else Except.error CalcError.divByZero

/-- Event-filtered rows (line 136). -/
def app_filteredRows (df : Table) : List Row :=
  df.rows.filter (fun r => valIsIn (getVal r "event_type") eventKeep)

/-- The fixed numeric columns coerced at lines 138-140. -/
def appNumericCols : List String :=
  ["distance_travelled_actual", "steaming_time_hrs", "me_fuel_consumed"]

/-- Rows after the coercion of lines 138-140 (the `day_status` column is not
coerced here, unlike in c.CPsuite.py). -/
def app_rows (df : Table) : List Row :=
  (app_filteredRows df).map (coerceRow appNumericCols)

def app_totalDistance (df : Table) : ℚ :=
  sumCol (app_rows df) (some "distance_travelled_actual")

def app_totalTime (df : Table) : ℚ :=
  sumCol (app_rows df) (some "steaming_time_hrs")

def app_totalFuel (df : Table) : ℚ :=
  sumCol (app_rows df) (some "me_fuel_consumed")

/-- `voyage_avg_speed` (line 145; truthiness guard `if total_time`). -/
def app_voyageAvgSpeed (df : Table) : ℚ :=
  if app_totalTime df ≠ 0 then app_totalDistance df / app_totalTime df else 0

/-- Good-weather rows (line 147). -/
def app_goodDays (df : Table) : List Row :=
  (app_rows df).filter (fun r => valEqStr (getVal r "day_status") "GOOD WEATHER DAY")

/-- Bad-weather rows (line 148). -/
def app_badDays (df : Table) : List Row :=
  (app_rows df).filter (fun r => valEqStr (getVal r "day_status") "BAD WEATHER DAY")

def app_goodDistance (df : Table) : ℚ :=
  sumCol (app_goodDays df) (some "distance_travelled_actual")

def app_goodTime (df : Table) : ℚ :=
  sumCol (app_goodDays df) (some "steaming_time_hrs")

def app_goodFuel (df : Table) : ℚ :=
  sumCol (app_goodDays df) (some "me_fuel_consumed")

/-- `good_speed` (line 153, truthiness guard). -/
def app_goodSpeed (df : Table) : ℚ :=
  if app_goodTime df ≠ 0 then app_goodDistance df / app_goodTime df else 0

/-- `good_fo_hr` (line 154, truthiness guard). -/
def app_goodFoHr (df : Table) : ℚ :=
  if app_goodTime df ≠ 0 then app_goodFuel df / app_goodTime df else 0

/-- `good_fo_day` (line 155). -/
def app_goodFoDay (df : Table) : ℚ := app_goodFoHr df * 24

def app_badDistance (df : Table) : ℚ :=
  sumCol (app_badDays df) (some "distance_travelled_actual")

def app_badTime (df : Table) : ℚ :=
  sumCol (app_badDays df) (some "steaming_time_hrs")

def app_badFuel (df : Table) : ℚ :=
  sumCol (app_badDays df) (some "me_fuel_consumed")

/-- `bad_speed` (line 160, truthiness guard). -/
def app_badSpeed (df : Table) : ℚ :=
  if app_badTime df ≠ 0 then app_badDistance df / app_badTime df else 0

/-- The `speed_condition` clamp of charterparty_app.py (lines 166-172): lower
band edge when strictly below it, upper band edge when strictly above it,
the observed good speed otherwise — so a good speed exactly on the upper
band edge stays put here. -/
def app_speedCondition (good_speed warranted_speed : ℚ) : ℚ :=
  if good_speed < warranted_speed - speed_tolerance_knots then
    warranted_speed - speed_tolerance_knots
  else if warranted_speed + speed_tolerance_knots < good_speed then
    warranted_speed + speed_tolerance_knots
  else good_speed

def app_effectiveSpeed (df : Table) (cp_terms : List CPTerm) : ℚ :=
  app_speedCondition (app_goodSpeed df) (warrantedSpeedOf cp_terms)

/-- `entire_voyage_good_weather_based` (line 174, truthiness guard on the
unclamped good speed). -/
def app_entireVoyageCons (df : Table) : ℚ :=
  if app_goodSpeed df ≠ 0 then
    app_totalDistance df / app_goodSpeed df * (app_goodFoDay df / 24)
  else 0

/-- The unguarded denominators of lines 175-176 and 181-183. -/
def app_divSafe (df : Table) (cp_terms : List CPTerm) : Prop :=
  app_effectiveSpeed df cp_terms ≠ 0 ∧
  warrantedSpeedOf cp_terms - speed_tolerance_knots ≠ 0 ∧
  warrantedSpeedOf cp_terms + speed_tolerance_knots ≠ 0

instance (df : Table) (cp_terms : List CPTerm) : Decidable (app_divSafe df cp_terms) :=
  inferInstanceAs (Decidable (_ ∧ _ ∧ _))

/-- `max_warranted_cons` (line 175). -/
def app_maxWarrantedFo (df : Table) (cp_terms : List CPTerm) : ℚ :=
  app_totalDistance df / app_effectiveSpeed df cp_terms * (warrantedPlusTol cp_terms / 24)

/-- `min_warranted_cons` (line 176). -/
def app_minWarrantedFo (df : Table) (cp_terms : List CPTerm) : ℚ :=
  app_totalDistance df / app_effectiveSpeed df cp_terms * (warrantedMinusTol cp_terms / 24)

/-- `time_at_good_spd` (line 181). -/
def app_timeAtGoodSpd (df : Table) (cp_terms : List CPTerm) : ℚ :=
  app_totalDistance df / app_effectiveSpeed df cp_terms

/-- `max_time` (line 182). -/
def app_maxTime (df : Table) (cp_terms : List CPTerm) : ℚ :=
  app_totalDistance df / (warrantedSpeedOf cp_terms - speed_tolerance_knots)

/-- `min_time` (line 183). -/
def app_minTime (df : Table) (cp_terms : List CPTerm) : ℚ :=
  app_totalDistance df / (warrantedSpeedOf cp_terms + speed_tolerance_knots)

/-- The results dictionary of lines 187-209 (the three time intermediates are
computed by the source but not exported; they are included here so both
variants share one result type — an incidental key-set difference). -/
def app_results (df : Table) (cp_terms : List CPTerm) : Results :=
  { total_distance := app_totalDistance df
    total_steaming_time := app_totalTime df
    voyage_avg_speed := app_voyageAvgSpeed df
    good_wx_distance := app_goodDistance df
    good_wx_time := app_goodTime df
    good_wx_speed := app_goodSpeed df
    good_wx_fo_cons := app_goodFuel df
    good_wx_fo_rate_hr := app_goodFoHr df
    good_wx_fo_rate_day := app_goodFoDay df
    bad_wx_distance := app_badDistance df
    bad_wx_time := app_badTime df
    bad_wx_speed := app_badSpeed df
    bad_wx_fo_cons := app_badFuel df
    total_me_fuel := app_totalFuel df
    entire_voyage_cons := app_entireVoyageCons df
    max_warranted_fo := app_maxWarrantedFo df cp_terms
    min_warranted_fo := app_minWarrantedFo df cp_terms
    fuel_overconsumption := max (app_entireVoyageCons df - app_maxWarrantedFo df cp_terms) 0
    fuel_saving := max (app_minWarrantedFo df cp_terms - app_entireVoyageCons df) 0
    time_at_good_wx_speed := app_timeAtGoodSpd df cp_terms
    max_time_at_warranted_spd := app_maxTime df cp_terms
    min_time_at_warranted_spd := app_minTime df cp_terms
    time_gained := max (app_minTime df cp_terms - app_timeAtGoodSpd df cp_terms) 0
    time_lost := max (app_timeAtGoodSpd df cp_terms - app_maxTime df cp_terms) 0 }

/-- The columns charterparty_app.py reads unconditionally, in evaluation
order (lines 136, 139-140, 147-148): a table lacking one raises `KeyError`. -/
def appRequiredCols : List String :=
  ["event_type", "distance_travelled_actual", "steaming_time_hrs",
   "me_fuel_consumed", "day_status"]

/-- `perform_calculations` (charterparty_app.py lines 125-209): reports a
configuration error and returns no result when the CP-term list is empty;
raises `KeyError` on a missing fixed column; raises `ZeroDivisionError`
when an unguarded denominator is zero. -/
def perform_calculations (cp_terms : List CPTerm) (df : Table) : Except CalcError Results :=
  match cp_terms with
  | [] => Except.error CalcError.noCpTerms
  | _ :: _ =>
    match appRequiredCols.find? (fun c => !df.cols.contains c) with
    | some c => Except.error (CalcError.keyError c)
    | none =>
      if app_divSafe df cp_terms then Except.ok (app_results df cp_terms)
      else Except.error CalcError.divByZero

/-- Acceptance test applied by both CP-term entry forms
(c.CPsuite.py lines 460-477, charterparty_app.py lines 61-75): the number
inputs constrain each value to be at least `0.0` and the term is appended
with no further validation — in particular nothing rejects a warranted
speed at or below the 0.5 kn speed tolerance, or a zero speed/consumption. -/
def acceptCpTerm (t : CPTerm) : Bool :=
  decide (0 ≤ t.speed) && decide (0 ≤ t.me_consumption) && decide (0 ≤ t.ae_consumption)

/-- Modelled from the spec: the §4.5 step-2 effective-speed rule, as worded
there — observed good speed when strictly inside the warranted band, the
upper band edge when strictly above it, the lower band edge in every other
case (including a good speed exactly on the upper band edge), the three
cases applied in this exact order. -/
def specEffectiveSpeed (good_speed warranted_speed : ℚ) : ℚ :=
  if warranted_speed - speed_tolerance_knots < good_speed ∧
     good_speed < warranted_speed + speed_tolerance_knots then good_speed
  else if warranted_speed + speed_tolerance_knots < good_speed then
    warranted_speed + speed_tolerance_knots
  else warranted_speed - speed_tolerance_knots

/-- Two rows that agree outside column `c` and whose `c`-cells have the same
numeric reading. -/
def RowRel (c : String) (r1 r2 : Row) : Prop :=
  (∀ k, k ≠ c → getVal r1 k = getVal r2 k) ∧
  valToNum (getVal r1 c) = valToNum (getVal r2 c)

/-- The resolved numeric columns (distance, time, fuel) of a table. -/
def cps_numericCols (df : Table) : List String :=
  [cps_distanceCol df, cps_timeCol df, cps_fuelCol df].filterMap id

/-- Default weather definition of the c.CPsuite session (Beaufort 5, no
current factor; integral wave limit chosen for convenience). -/
def wdA : WeatherDef := { beaufort_scale := 5, wave_height := 3, include_current := false }

/-- A one-term CP list: 13 kn warranted at 20 MT/day. -/
def terms13 : List CPTerm := [{ speed := 13, me_consumption := 20, ae_consumption := 0 }]

/-- A plain one-row table using c.CPsuite alias names: one noon report,
100 nm, 10 h, 20 MT. -/
def tblA : Table :=
  { cols := ["event_type", "distance", "steaming_time_hrs", "me_fuel_consumed"]
    rows := [[("event_type", Val.str "NOON AT SEA"), ("distance", Val.num 100),
              ("steaming_time_hrs", Val.num 10), ("me_fuel_consumed", Val.num 20)]] }

/-- The row of `tblA` after the resolved-column coercion pass. -/
def rowA : Row :=
  [("event_type", Val.missing), ("me_fuel_consumed", Val.num 20),
   ("steaming_time_hrs", Val.num 10), ("distance", Val.num 100)]

/-- A one-row table using the exact fixed charterparty_app column names,
with a precomputed GOOD-weather status. -/
def tbl4 : Table :=
  { cols := appRequiredCols
    rows := [[("event_type", Val.str "NOON AT SEA"), ("day_status", Val.str "GOOD WEATHER DAY"),
              ("distance_travelled_actual", Val.num 100), ("steaming_time_hrs", Val.num 10),
              ("me_fuel_consumed", Val.num 20)]] }

/-- The row of `tbl4` after the c.CPsuite coercion pass: the resolved
`day_status` column has been numerically coerced, so its label is gone. -/
def row4c : Row :=
  [("event_type", Val.missing), ("day_status", Val.missing),
   ("me_fuel_consumed", Val.num 20), ("steaming_time_hrs", Val.num 10),
   ("distance_travelled_actual", Val.num 100)]

/-- The row of `tbl4` after the charterparty_app coercion pass: only the
three numeric columns are coerced and the label survives. -/
def row4a : Row :=
  [("me_fuel_consumed", Val.num 20), ("steaming_time_hrs", Val.num 10),
   ("distance_travelled_actual", Val.num 100), ("event_type", Val.str "NOON AT SEA"),
   ("day_status", Val.str "GOOD WEATHER DAY")]

/-- A table with no column matching any distance alias (but with the other
charterparty_app fixed columns present). -/
def tblB : Table :=
  { cols := ["event_type", "steaming_time_hrs", "me_fuel_consumed", "day_status"]
    rows := [[("event_type", Val.str "NOON AT SEA"), ("steaming_time_hrs", Val.num 10),
              ("me_fuel_consumed", Val.num 20), ("day_status", Val.str "GOOD WEATHER DAY")]] }

/-- A table with steaming time and fuel but no distance column at all. -/
def tblC3 : Table :=
  { cols := ["event_type", "steaming_time_hrs", "me_fuel_consumed"]
    rows := [[("event_type", Val.str "NOON AT SEA"), ("steaming_time_hrs", Val.num 24),
              ("me_fuel_consumed", Val.num 20)]] }

/-- A one-row table for the joint-nonzero counterexample: 1 nm in 2 h with a
negative (malformed-data) fuel figure of -1.7 MT. -/
def tblC7 : Table :=
  { cols := ["event_type", "distance", "steaming_time_hrs", "me_fuel_consumed"]
    rows := [[("event_type", Val.str "NOON AT SEA"), ("distance", Val.num 1),
              ("steaming_time_hrs", Val.num 2), ("me_fuel_consumed", Val.num (-17/10))]] }

/-- A CP term with zero warranted speed, accepted by both entry forms. -/
def terms0 : List CPTerm := [{ speed := 0, me_consumption := 20, ae_consumption := 0 }]

/-- The row of `tblC7` after the coercion pass. -/
def rowC7 : Row :=
  [("event_type", Val.missing), ("me_fuel_consumed", Val.num (-17/10)),
   ("steaming_time_hrs", Val.num 2), ("distance", Val.num 1)]

/-- A table with wind/wave/current columns but no weather-status column; its
single surviving record reports wind force 9 and omits the wave-height and
current fields entirely. -/
def tbl8 : Table :=
  { cols := ["event_type", "wind_force", "wave_height", "current"]
    rows := [[("event_type", Val.str "COSP"), ("wind_force", Val.num 9)]] }

/-- The row of `tbl8` after the coercion pass. -/
def row8 : Row := [("event_type", Val.missing), ("wind_force", Val.num 9)]

/-- The same record in a table whose wave-height (and current) columns are
entirely absent: only `event_type` and `wind_force` exist. The coercion pass
produces the same `row8`. -/
def tbl8b : Table :=
  { cols := ["event_type", "wind_force"]
    rows := [[("event_type", Val.str "COSP"), ("wind_force", Val.num 9)]] }

/-- A table with only a `datetime` column and one record at instant 5. -/
def tbl9 : Table := { cols := ["datetime"], rows := [[("datetime", Val.num 5)]] }

/-- The unique row of `tbl9` (no column is resolved, so nothing is coerced). -/
def row9 : Row := [("datetime", Val.num 5)]

/-- One exclusion period covering instants 1 through 10. -/
def ep9 : List ExclusionPeriod := [{ start := 1, stop := 10 }]

/-- The columns the c.CPsuite coercion pass touches on a table with the
fixed charterparty_app column set. -/
def cps5cols : List String :=
  ["distance_travelled_actual", "steaming_time_hrs", "me_fuel_consumed",
   "day_status", "event_type"]

/-! ## Lemmas and claim theorems -/

theorem getVal_nil (c : String) : getVal [] c = Val.missing := rfl

theorem getVal_cons (k : String) (v : Val) (r : Row) (c : String) :
    getVal ((k, v) :: r) c = if c = k then v else getVal r c := by
  by_cases h : c = k
  · simp [getVal, List.lookup, h]
  · simp [getVal, List.lookup, beq_eq_false_iff_ne.mpr h, h]

theorem getVal_setVal_self (r : Row) (c : String) (v : Val) :
    getVal (r.setVal c v) c = v := by
  simp [Row.setVal, getVal_cons]

theorem getVal_setVal_ne (r : Row) (c c' : String) (v : Val) (h : c' ≠ c) :
    getVal (r.setVal c v) c' = getVal r c' := by
  rw [Row.setVal, getVal_cons, if_neg h]
  induction r with
  | nil => rfl
  | cons p r ih =>
    by_cases hp : p.1 = c
    · rw [List.filter_cons_of_neg (by simp [hp])]
      rw [ih]
      rcases p with ⟨k, v2⟩
      simp only at hp
      rw [getVal_cons, if_neg (by rw [hp]; exact h)]
    · rw [List.filter_cons_of_pos (by simp [hp])]
      rcases p with ⟨k, v2⟩
      by_cases hck : c' = k
      · rw [getVal_cons, if_pos hck, getVal_cons, if_pos hck]
      · rw [getVal_cons, if_neg hck, getVal_cons, if_neg hck, ih]

theorem valToNum_coerceNum (v : Val) : valToNum (coerceNum v) = valToNum v := by
  cases v <;> rfl

theorem coerceNum_idem (v : Val) : coerceNum (coerceNum v) = coerceNum v := by
  cases v <;> rfl

/-- Reading a column after the numeric coercion pass: coerced when the column
is in the coerced list, untouched otherwise. -/
theorem getVal_coerceRow (cs : List String) (r : Row) (k : String) :
    getVal (coerceRow cs r) k =
      if k ∈ cs then coerceNum (getVal r k) else getVal r k := by
  induction cs generalizing r with
  | nil => simp [coerceRow]
  | cons c cs ih =>
    rw [coerceRow, List.foldl_cons]
    rw [show (List.foldl (fun r c => r.setVal c (coerceNum (getVal r c))) (r.setVal c (coerceNum (getVal r c))) cs) = coerceRow cs (r.setVal c (coerceNum (getVal r c))) from rfl]
    rw [ih]
    by_cases hk : k = c
    · subst hk
      simp [getVal_setVal_self, coerceNum_idem]
    · rw [getVal_setVal_ne _ _ _ _ hk]
      simp [List.mem_cons, hk]

theorem sumCol_none (rows : List Row) : sumCol rows none = 0 := rfl

theorem sumCol_some (rows : List Row) (cn : String) :
    sumCol rows (some cn) = (rows.map (fun r => valToNum (getVal r cn))).sum := rfl

/-- A resolved column name is one of its alias candidates. -/
theorem resolveCol_mem (df : Table) (poss : List String) (c : String)
    (h : resolveCol df poss = some c) : c ∈ poss :=
  List.mem_of_find?_eq_some h

/-- A nonzero `max 0 x` forces `0 < x`. -/
theorem pos_of_max_ne_zero (x : ℚ) (h : max 0 x ≠ 0) : 0 < x := by
  rcases le_or_lt x 0 with hx | hx
  · exact absurd (max_eq_left hx) h
  · exact hx

/-- A nonzero `max x 0` forces `0 < x`. -/
theorem pos_of_max_zero_ne_zero (x : ℚ) (h : max x 0 ≠ 0) : 0 < x := by
  rcases le_or_lt x 0 with hx | hx
  · exact absurd (max_eq_right hx) h
  · exact hx

/-- The c.CPsuite effective speed is positive whenever the warranted speed
exceeds the speed tolerance. -/
theorem effectiveSpeed_pos (gs W : ℚ) (hW : speed_tolerance_knots < W) :
    0 < effectiveSpeed gs W := by
  rw [effectiveSpeed]
  split_ifs with h1 h2
  · rw [speed_tolerance_knots] at hW
    rcases h1 with ⟨_, h1b⟩
    rw [speed_tolerance_knots] at h1b
    linarith
  · rw [speed_tolerance_knots] at hW ⊢
    linarith
  · rw [speed_tolerance_knots] at hW ⊢
    linarith

/-- The charterparty_app speed condition is positive whenever the warranted
speed exceeds the speed tolerance. -/
theorem app_speedCondition_pos (gs W : ℚ) (hW : speed_tolerance_knots < W) :
    0 < app_speedCondition gs W := by
  rw [app_speedCondition]
  rw [speed_tolerance_knots] at hW ⊢
  split_ifs with h1 h2
  · linarith
  · linarith
  · linarith

/-- Count partition of a list under two mutually exclusive Bool predicates. -/
theorem filter_length_partition (l : List Row) (p q : Row → Bool)
    (hpq : ∀ r, ¬(p r = true ∧ q r = true)) :
    (l.filter p).length + (l.filter q).length +
      (l.filter (fun r => !p r && !q r)).length = l.length := by
  induction l with
  | nil => rfl
  | cons a l ih =>
    by_cases hp : p a = true
    · have hq : q a = false := by
        rcases hq2 : q a with _ | _
        · rfl
        · exact absurd ⟨hp, hq2⟩ (hpq a)
      simp [List.filter_cons, hp, hq]
      omega
    · have hp2 : p a = false := by
        rcases hp3 : p a with _ | _
        · rfl
        · exact absurd hp3 hp
      by_cases hq : q a = true
      · simp [List.filter_cons, hp2, hq]
        omega
      · have hq2 : q a = false := by
          rcases hq3 : q a with _ | _
          · rfl
          · exact absurd hq3 hq
        simp [List.filter_cons, hp2, hq2]
        omega

/-- Sum partition of a list under two mutually exclusive Bool predicates. -/
theorem filter_sum_partition (l : List Row) (p q : Row → Bool) (f : Row → ℚ)
    (hpq : ∀ r, ¬(p r = true ∧ q r = true)) :
    ((l.filter p).map f).sum + ((l.filter q).map f).sum +
      ((l.filter (fun r => !p r && !q r)).map f).sum = (l.map f).sum := by
  induction l with
  | nil => simp
  | cons a l ih =>
    by_cases hp : p a = true
    · have hq : q a = false := by
        rcases hq2 : q a with _ | _
        · rfl
        · exact absurd ⟨hp, hq2⟩ (hpq a)
      simp [List.filter_cons, hp, hq]
      linarith
    · have hp2 : p a = false := by
        rcases hp3 : p a with _ | _
        · rfl
        · exact absurd hp3 hp
      by_cases hq : q a = true
      · simp [List.filter_cons, hp2, hq]
        linarith
      · have hq2 : q a = false := by
          rcases hq3 : q a with _ | _
          · rfl
          · exact absurd hq3 hq
        simp [List.filter_cons, hp2, hq2]
        linarith

theorem RowRel.refl (c : String) (r : Row) : RowRel c r r :=
  ⟨fun _ _ => Eq.refl _, Eq.refl _⟩

theorem forall₂_rowRel_refl (c : String) (l : List Row) : List.Forall₂ (RowRel c) l l :=
  List.forall₂_same.mpr (fun r _ => RowRel.refl c r)

/-- Setting position `i` of equal lists to related rows keeps the lists
pointwise related. -/
theorem forall₂_rowRel_set (c : String) (l : List Row) (i : ℕ) (a b : Row)
    (hab : RowRel c a b) : List.Forall₂ (RowRel c) (l.set i a) (l.set i b) := by
  induction l generalizing i with
  | nil => simp [List.set]
  | cons x l ih =>
    cases i with
    | zero => exact List.Forall₂.cons hab (forall₂_rowRel_refl c l)
    | succ n => exact List.Forall₂.cons (RowRel.refl c x) (ih n)

/-- Filtering by a predicate that is constant on related rows preserves the
pointwise relation. -/
theorem forall₂_rowRel_filter (c : String) (p : Row → Bool) (l1 l2 : List Row)
    (h : List.Forall₂ (RowRel c) l1 l2)
    (hp : ∀ r1 r2, RowRel c r1 r2 → p r1 = p r2) :
    List.Forall₂ (RowRel c) (l1.filter p) (l2.filter p) := by
  induction h with
  | nil => exact List.Forall₂.nil
  | cons hab hl ih =>
    rename_i a b l1 l2
    rw [List.filter_cons, List.filter_cons, hp a b hab]
    by_cases hb : p b = true
    · rw [if_pos hb, if_pos hb]
      exact List.Forall₂.cons hab ih
    · rw [if_neg hb, if_neg hb]
      exact ih

/-- Mapping a function that preserves the relation preserves the pointwise
relation. -/
theorem forall₂_rowRel_map (c : String) (f : Row → Row) (l1 l2 : List Row)
    (h : List.Forall₂ (RowRel c) l1 l2)
    (hf : ∀ r1 r2, RowRel c r1 r2 → RowRel c (f r1) (f r2)) :
    List.Forall₂ (RowRel c) (l1.map f) (l2.map f) := by
  induction h with
  | nil => exact List.Forall₂.nil
  | cons hab hl ih => exact List.Forall₂.cons (hf _ _ hab) ih

/-- Sums of a function that is constant on related rows agree. -/
theorem forall₂_rowRel_sum (c : String) (f : Row → ℚ) (l1 l2 : List Row)
    (h : List.Forall₂ (RowRel c) l1 l2)
    (hf : ∀ r1 r2, RowRel c r1 r2 → f r1 = f r2) :
    (l1.map f).sum = (l2.map f).sum := by
  induction h with
  | nil => rfl
  | cons hab hl ih =>
    simp only [List.map_cons, List.sum_cons, hf _ _ hab, ih]

/-- The numeric coercion pass preserves the row relation. -/
theorem rowRel_coerceRow (c : String) (cs : List String) (r1 r2 : Row)
    (h : RowRel c r1 r2) : RowRel c (coerceRow cs r1) (coerceRow cs r2) := by
  constructor
  · intro k hk
    rw [getVal_coerceRow, getVal_coerceRow]
    by_cases hmem : k ∈ cs
    · rw [if_pos hmem, if_pos hmem, h.1 k hk]
    · rw [if_neg hmem, if_neg hmem, h.1 k hk]
  · rw [getVal_coerceRow, getVal_coerceRow]
    by_cases hmem : c ∈ cs
    · rw [if_pos hmem, if_pos hmem, valToNum_coerceNum, valToNum_coerceNum, h.2]
    · rw [if_neg hmem, if_neg hmem, h.2]

/-- Summing any single column reads the same on related rows. -/
theorem rowRel_colRead (c : String) (cn : String) (r1 r2 : Row)
    (h : RowRel c r1 r2) : valToNum (getVal r1 cn) = valToNum (getVal r2 cn) := by
  by_cases hcn : cn = c
  · subst hcn
    exact h.2
  · rw [h.1 cn hcn]

/-- Every column name the c.CPsuite pipeline branches on is distinct from
every numeric alias, so changing a numeric cell cannot change any filter or
classification decision. -/
theorem numericAlias_ne_controlCols :
    ∀ c ∈ distanceAliases ++ timeAliases ++ fuelAliases,
      c ≠ "datetime" ∧ c ∉ eventAliases ∧ c ∉ weatherAliases ∧
      c ≠ "wind_force" ∧ c ≠ "wave_height" ∧ c ≠ "current" := by
  decide

theorem cps_numericCols_sub (df : Table) (c : String) (hc : c ∈ cps_numericCols df) :
    c ∈ distanceAliases ++ timeAliases ++ fuelAliases := by
  rcases List.mem_filterMap.mp hc with ⟨o, ho, hoc⟩
  simp only [id] at hoc
  subst hoc
  simp only [List.mem_cons, List.not_mem_nil, or_false] at ho
  rcases ho with h | h | h
  · have := resolveCol_mem df distanceAliases c h.symm
    simp [List.mem_append, this]
  · have := resolveCol_mem df timeAliases c h.symm
    simp [List.mem_append, this]
  · have := resolveCol_mem df fuelAliases c h.symm
    simp [List.mem_append, this]

/-- Sums over pointwise-related row lists agree for every column. -/
theorem sumCol_congr_of_rel (c : String) (l1 l2 : List Row) (o : Option String)
    (h : List.Forall₂ (RowRel c) l1 l2) : sumCol l1 o = sumCol l2 o := by
  cases o with
  | none => rfl
  | some cn =>
    simp only [sumCol]
    exact forall₂_rowRel_sum c _ _ _ h (fun r1 r2 hr => rowRel_colRead c cn r1 r2 hr)

/-- Replacing the cell at row `i` of a resolved numeric column by any cell
with the same numeric reading leaves the whole c.CPsuite calculation
unchanged: filters and the weather classification never read a numeric
column, and every sum only reads the cell through its numeric value. -/
theorem process_updateCell_congr (df : Table) (cp : List CPTerm) (wd : WeatherDef)
    (ep : List ExclusionPeriod) (i : ℕ) (c : String) (v1 v2 : Val)
    (hc : c ∈ cps_numericCols df) (hv : valToNum v1 = valToNum v2) :
    process_calculation_data (updateCell df i c v1) cp wd ep =
      process_calculation_data (updateCell df i c v2) cp wd ep := by
  have hcA := cps_numericCols_sub df c hc
  obtain ⟨hdt, hev, hwc, hwf, hwh, hcu⟩ := numericAlias_ne_controlCols c hcA
  set df1 := updateCell df i c v1 with hdf1
  set df2 := updateCell df i c v2 with hdf2
  -- the two updated tables are pointwise related
  have hrel0 : List.Forall₂ (RowRel c) df1.rows df2.rows := by
    refine forall₂_rowRel_set c df.rows i _ _ ⟨fun k hk => ?_, ?_⟩
    · rw [getVal_setVal_ne _ _ _ _ hk, getVal_setVal_ne _ _ _ _ hk]
    · rw [getVal_setVal_self, getVal_setVal_self]
      exact hv
  -- event filter
  have hrel1 : List.Forall₂ (RowRel c) (cps_eventRows df1) (cps_eventRows df2) := by
    simp only [cps_eventRows]
    rw [show cps_eventCol df1 = cps_eventCol df from rfl,
        show cps_eventCol df2 = cps_eventCol df from rfl]
    cases hec : cps_eventCol df with
    | none => exact hrel0
    | some ec =>
      refine forall₂_rowRel_filter c _ _ _ hrel0 (fun r1 r2 hr => ?_)
      have hne : ec ≠ c := by
        intro hEq
        exact hev (hEq ▸ resolveCol_mem df eventAliases ec hec)
      rw [hr.1 ec hne]
  -- exclusion filter
  have hrel2 : List.Forall₂ (RowRel c) (cps_filteredRows df1 ep) (cps_filteredRows df2 ep) := by
    simp only [cps_filteredRows]
    rw [show df1.cols = df.cols from rfl, show df2.cols = df.cols from rfl]
    by_cases hdtc : df.cols.contains "datetime" = true
    · rw [if_pos hdtc, if_pos hdtc]
      refine forall₂_rowRel_filter c _ _ _ hrel1 (fun r1 r2 hr => ?_)
      rw [hr.1 "datetime" (Ne.symm hdt)]
    · rw [if_neg hdtc, if_neg hdtc]
      exact hrel1
  -- numeric coercion
  have hrel3 : List.Forall₂ (RowRel c) (cps_rows df1 ep) (cps_rows df2 ep) := by
    simp only [cps_rows]
    rw [show cps_resolvedCols df1 = cps_resolvedCols df from rfl,
        show cps_resolvedCols df2 = cps_resolvedCols df from rfl]
    exact forall₂_rowRel_map c _ _ _ hrel2
      (fun r1 r2 hr => rowRel_coerceRow c (cps_resolvedCols df) r1 r2 hr)
  -- weather split
  have hrelG : List.Forall₂ (RowRel c) (cps_goodDays df1 wd ep) (cps_goodDays df2 wd ep) := by
    simp only [cps_goodDays]
    rw [show cps_weatherCol df1 = cps_weatherCol df from rfl,
        show cps_weatherCol df2 = cps_weatherCol df from rfl]
    cases hwcol : cps_weatherCol df with
    | none =>
      rw [show cps_isGoodWeather df1 wd = cps_isGoodWeather df wd from rfl,
          show cps_isGoodWeather df2 wd = cps_isGoodWeather df wd from rfl]
      refine forall₂_rowRel_filter c _ _ _ hrel3 (fun r1 r2 hr => ?_)
      simp only [cps_isGoodWeather]
      rw [hr.1 "wind_force" (Ne.symm hwf), hr.1 "wave_height" (Ne.symm hwh),
          hr.1 "current" (Ne.symm hcu)]
    | some wc =>
      refine forall₂_rowRel_filter c _ _ _ hrel3 (fun r1 r2 hr => ?_)
      have hne : wc ≠ c := by
        intro hEq
        exact hwc (hEq ▸ resolveCol_mem df weatherAliases wc hwcol)
      rw [hr.1 wc hne]
  have hrelB : List.Forall₂ (RowRel c) (cps_badDays df1 wd ep) (cps_badDays df2 wd ep) := by
    simp only [cps_badDays]
    rw [show cps_weatherCol df1 = cps_weatherCol df from rfl,
        show cps_weatherCol df2 = cps_weatherCol df from rfl]
    cases hwcol : cps_weatherCol df with
    | none =>
      rw [show cps_isGoodWeather df1 wd = cps_isGoodWeather df wd from rfl,
          show cps_isGoodWeather df2 wd = cps_isGoodWeather df wd from rfl]
      refine forall₂_rowRel_filter c _ _ _ hrel3 (fun r1 r2 hr => ?_)
      simp only [cps_isGoodWeather]
      rw [hr.1 "wind_force" (Ne.symm hwf), hr.1 "wave_height" (Ne.symm hwh),
          hr.1 "current" (Ne.symm hcu)]
    | some wc =>
      refine forall₂_rowRel_filter c _ _ _ hrel3 (fun r1 r2 hr => ?_)
      have hne : wc ≠ c := by
        intro hEq
        exact hwc (hEq ▸ resolveCol_mem df weatherAliases wc hwcol)
      rw [hr.1 wc hne]
  -- the nine base sums agree
  have hTD : cps_totalDistance df1 ep = cps_totalDistance df2 ep := by
    simp only [cps_totalDistance]
    rw [show cps_distanceCol df1 = cps_distanceCol df from rfl,
        show cps_distanceCol df2 = cps_distanceCol df from rfl]
    exact sumCol_congr_of_rel c _ _ _ hrel3
  have hTT : cps_totalTime df1 ep = cps_totalTime df2 ep := by
    simp only [cps_totalTime]
    rw [show cps_timeCol df1 = cps_timeCol df from rfl,
        show cps_timeCol df2 = cps_timeCol df from rfl]
    exact sumCol_congr_of_rel c _ _ _ hrel3
  have hTF : cps_totalFuel df1 ep = cps_totalFuel df2 ep := by
    simp only [cps_totalFuel]
    rw [show cps_fuelCol df1 = cps_fuelCol df from rfl,
        show cps_fuelCol df2 = cps_fuelCol df from rfl]
    exact sumCol_congr_of_rel c _ _ _ hrel3
  have hGD : cps_goodDistance df1 wd ep = cps_goodDistance df2 wd ep := by
    simp only [cps_goodDistance]
    rw [show cps_distanceCol df1 = cps_distanceCol df from rfl,
        show cps_distanceCol df2 = cps_distanceCol df from rfl]
    exact sumCol_congr_of_rel c _ _ _ hrelG
  have hGT : cps_goodTime df1 wd ep = cps_goodTime df2 wd ep := by
    simp only [cps_goodTime]
    rw [show cps_timeCol df1 = cps_timeCol df from rfl,
        show cps_timeCol df2 = cps_timeCol df from rfl]
    exact sumCol_congr_of_rel c _ _ _ hrelG
  have hGF : cps_goodFuel df1 wd ep = cps_goodFuel df2 wd ep := by
    simp only [cps_goodFuel]
    rw [show cps_fuelCol df1 = cps_fuelCol df from rfl,
        show cps_fuelCol df2 = cps_fuelCol df from rfl]
    exact sumCol_congr_of_rel c _ _ _ hrelG
  have hBD : cps_badDistance df1 wd ep = cps_badDistance df2 wd ep := by
    simp only [cps_badDistance]
    rw [show cps_distanceCol df1 = cps_distanceCol df from rfl,
        show cps_distanceCol df2 = cps_distanceCol df from rfl]
    exact sumCol_congr_of_rel c _ _ _ hrelB
  have hBT : cps_badTime df1 wd ep = cps_badTime df2 wd ep := by
    simp only [cps_badTime]
    rw [show cps_timeCol df1 = cps_timeCol df from rfl,
        show cps_timeCol df2 = cps_timeCol df from rfl]
    exact sumCol_congr_of_rel c _ _ _ hrelB
  have hBF : cps_badFuel df1 wd ep = cps_badFuel df2 wd ep := by
    simp only [cps_badFuel]
    rw [show cps_fuelCol df1 = cps_fuelCol df from rfl,
        show cps_fuelCol df2 = cps_fuelCol df from rfl]
    exact sumCol_congr_of_rel c _ _ _ hrelB
  -- derived quantities agree
  have hVAS : cps_voyageAvgSpeed df1 ep = cps_voyageAvgSpeed df2 ep := by
    simp only [cps_voyageAvgSpeed, hTD, hTT]
  have hGS : cps_goodSpeed df1 wd ep = cps_goodSpeed df2 wd ep := by
    simp only [cps_goodSpeed, hGD, hGT]
  have hGH : cps_goodFoHr df1 wd ep = cps_goodFoHr df2 wd ep := by
    simp only [cps_goodFoHr, hGF, hGT]
  have hGDay : cps_goodFoDay df1 wd ep = cps_goodFoDay df2 wd ep := by
    simp only [cps_goodFoDay, hGH]
  have hBS : cps_badSpeed df1 wd ep = cps_badSpeed df2 wd ep := by
    simp only [cps_badSpeed, hBD, hBT]
  have hEff : cps_effectiveSpeed df1 cp wd ep = cps_effectiveSpeed df2 cp wd ep := by
    simp only [cps_effectiveSpeed, hGS]
  have hEV : cps_entireVoyageCons df1 wd ep = cps_entireVoyageCons df2 wd ep := by
    simp only [cps_entireVoyageCons, hGS, hTD, hGDay]
  have hMaxF : cps_maxWarrantedFo df1 cp wd ep = cps_maxWarrantedFo df2 cp wd ep := by
    simp only [cps_maxWarrantedFo, hTD, hEff]
  have hMinF : cps_minWarrantedFo df1 cp wd ep = cps_minWarrantedFo df2 cp wd ep := by
    simp only [cps_minWarrantedFo, hTD, hEff]
  have hTAG : cps_timeAtGoodWxSpeed df1 cp wd ep = cps_timeAtGoodWxSpeed df2 cp wd ep := by
    simp only [cps_timeAtGoodWxSpeed, hTD, hEff]
  have hMaxT : cps_maxTimeAtWarrantedSpd df1 cp ep = cps_maxTimeAtWarrantedSpd df2 cp ep := by
    simp only [cps_maxTimeAtWarrantedSpd, hTD]
  have hMinT : cps_minTimeAtWarrantedSpd df1 cp ep = cps_minTimeAtWarrantedSpd df2 cp ep := by
    simp only [cps_minTimeAtWarrantedSpd, hTD]
  have hRes : cps_results df1 cp wd ep = cps_results df2 cp wd ep := by
    simp only [cps_results, hTD, hTT, hTF, hVAS, hGD, hGT, hGF, hGS, hGH, hGDay,
      hBD, hBT, hBF, hBS, hEV, hMaxF, hMinF, hTAG, hMaxT, hMinT]
  have hSafe : cps_divSafe df1 cp wd ep ↔ cps_divSafe df2 cp wd ep := by
    rw [cps_divSafe, cps_divSafe, hEff]
  rw [process_calculation_data, process_calculation_data, hRes]
  by_cases h : cps_divSafe df2 cp wd ep
  · rw [if_pos (hSafe.mpr h), if_pos h]
  · rw [if_neg (fun hh => h (hSafe.mp hh)), if_neg h]

/-- Sums of pointwise-equal functions agree. -/
theorem map_sum_congr (l : List Row) (f g : Row → ℚ) (h : ∀ r, f r = g r) :
    (l.map f).sum = (l.map g).sum := by
  induction l with
  | nil => rfl
  | cons a l ih => simp only [List.map_cons, List.sum_cons, h a, ih]

/-- No cell is both a good-weather and a bad-weather label. -/
theorem weather_labels_disjoint (v : Val) :
    ¬(valEqStr v "GOOD WEATHER DAY" = true ∧ valEqStr v "BAD WEATHER DAY" = true) := by
  rintro ⟨h1, h2⟩
  cases v with
  | str s =>
    simp only [valEqStr, beq_iff_eq] at h1 h2
    subst h1
    exact absurd h2 (by decide)
  | num q => simp [valEqStr] at h1
  | missing => simp [valEqStr] at h1

/-- Unfolding of the exclusion test: a cell is excluded exactly when it is a
parsed instant lying in the closed interval of some period. -/
theorem excludedBy_eq_true_iff (ep : List ExclusionPeriod) (v : Val) :
    excludedBy ep v = true ↔
      ∃ p ∈ ep, ∃ t : ℚ, v = Val.num t ∧ p.start ≤ t ∧ t ≤ p.stop := by
  rw [excludedBy, List.any_eq_true]
  cases v with
  | num t => simp
  | str s => simp
  | missing => simp

/-- The c.CPsuite effective-speed clamp agrees with the specification's
three-case rule at every input. -/
theorem effectiveSpeed_eq_spec (gs W : ℚ) :
    effectiveSpeed gs W = specEffectiveSpeed gs W := by
  rw [effectiveSpeed, specEffectiveSpeed]
  exact if_congr and_comm rfl rfl

/-- The charterparty_app speed condition agrees with the specification's rule
everywhere except possibly at the upper band edge. -/
theorem app_speedCondition_eq_spec (gs W : ℚ) (h : gs ≠ W + speed_tolerance_knots) :
    app_speedCondition gs W = specEffectiveSpeed gs W := by
  rw [app_speedCondition, specEffectiveSpeed]
  rw [speed_tolerance_knots] at h ⊢
  by_cases h1 : gs < W - 1/2
  · rw [if_pos h1, if_neg (by rintro ⟨h2, _⟩; linarith), if_neg (by intro h2; linarith)]
  · rw [if_neg h1]
    by_cases h2 : W + 1/2 < gs
    · rw [if_pos h2, if_neg (by rintro ⟨_, h3⟩; linarith), if_pos h2]
    · rw [if_neg h2]
      have hle : gs ≤ W + 1/2 := not_lt.mp h2
      have hge : W - 1/2 ≤ gs := not_lt.mp h1
      by_cases h3 : W - 1/2 < gs
      · rw [if_pos ⟨h3, lt_of_le_of_ne hle h⟩]
      · rw [if_neg (by rintro ⟨h4, _⟩; exact h3 h4), if_neg h2]
        linarith [not_lt.mp h3]

/-- At the upper band edge the charterparty_app speed condition keeps the
observed speed (the upper edge value itself). -/
theorem app_speedCondition_boundary (W : ℚ) :
    app_speedCondition (W + speed_tolerance_knots) W = W + speed_tolerance_knots := by
  rw [app_speedCondition, if_neg, if_neg]
  · exact lt_irrefl _
  · rw [speed_tolerance_knots]
    intro h
    linarith

theorem tblA_rows : cps_rows tblA [] = [rowA] := rfl

theorem tblA_goodDays (wd : WeatherDef) :
    wd.include_current = false → cps_goodDays tblA wd [] = [rowA] := by
  intro h
  simp only [cps_goodDays, show cps_weatherCol tblA = none from rfl]
  rw [tblA_rows]
  simp [cps_isGoodWeather, h, show Table.cols tblA = ["event_type", "distance", "steaming_time_hrs", "me_fuel_consumed"] from rfl]

theorem tblA_badDays (wd : WeatherDef) :
    wd.include_current = false → cps_badDays tblA wd [] = [] := by
  intro h
  simp only [cps_badDays, show cps_weatherCol tblA = none from rfl]
  rw [tblA_rows]
  simp [cps_isGoodWeather, h, show Table.cols tblA = ["event_type", "distance", "steaming_time_hrs", "me_fuel_consumed"] from rfl]

theorem tblA_totalDistance : cps_totalDistance tblA [] = 100 := by
  simp [cps_totalDistance, tblA_rows, show cps_distanceCol tblA = some "distance" from rfl,
    sumCol, rowA, getVal_cons, getVal_nil, valToNum]

theorem tblA_totalTime : cps_totalTime tblA [] = 10 := by
  simp [cps_totalTime, tblA_rows, show cps_timeCol tblA = some "steaming_time_hrs" from rfl,
    sumCol, rowA, getVal_cons, getVal_nil, valToNum]

theorem tblA_totalFuel : cps_totalFuel tblA [] = 20 := by
  simp [cps_totalFuel, tblA_rows, show cps_fuelCol tblA = some "me_fuel_consumed" from rfl,
    sumCol, rowA, getVal_cons, getVal_nil, valToNum]

theorem tblA_goodDistance : cps_goodDistance tblA wdA [] = 100 := by
  simp [cps_goodDistance, tblA_goodDays wdA rfl,
    show cps_distanceCol tblA = some "distance" from rfl,
    sumCol, rowA, getVal_cons, getVal_nil, valToNum]

theorem tblA_goodTime : cps_goodTime tblA wdA [] = 10 := by
  simp [cps_goodTime, tblA_goodDays wdA rfl,
    show cps_timeCol tblA = some "steaming_time_hrs" from rfl,
    sumCol, rowA, getVal_cons, getVal_nil, valToNum]

theorem tblA_goodFuel : cps_goodFuel tblA wdA [] = 20 := by
  simp [cps_goodFuel, tblA_goodDays wdA rfl,
    show cps_fuelCol tblA = some "me_fuel_consumed" from rfl,
    sumCol, rowA, getVal_cons, getVal_nil, valToNum]

theorem tblA_goodSpeed : cps_goodSpeed tblA wdA [] = 10 := by
  rw [cps_goodSpeed, tblA_goodDistance, tblA_goodTime]
  norm_num

theorem tblA_goodFoHr : cps_goodFoHr tblA wdA [] = 2 := by
  rw [cps_goodFoHr, tblA_goodFuel, tblA_goodTime]
  norm_num

theorem tblA_goodFoDay : cps_goodFoDay tblA wdA [] = 48 := by
  rw [cps_goodFoDay, tblA_goodFoHr]
  norm_num

/-- Effective speed of the `tblA` run for any warranted speed 13 terms
(the observed 10 kn lies below the band, so the lower edge 12.5 is used). -/
theorem tblA_effectiveSpeed (cp : List CPTerm) (h : warrantedSpeedOf cp = 13) :
    cps_effectiveSpeed tblA cp wdA [] = 25/2 := by
  rw [cps_effectiveSpeed, tblA_goodSpeed, h, effectiveSpeed, speed_tolerance_knots]
  norm_num

theorem tblA_divSafe (cp : List CPTerm) (h : warrantedSpeedOf cp = 13) :
    cps_divSafe tblA cp wdA [] := by
  refine ⟨?_, ?_, ?_⟩
  · rw [tblA_effectiveSpeed cp h]
    norm_num
  · rw [h, speed_tolerance_knots]
    norm_num
  · rw [h, speed_tolerance_knots]
    norm_num

theorem tbl4_rows : cps_rows tbl4 [] = [row4c] := rfl

theorem tbl4_goodDays : cps_goodDays tbl4 wdA [] = [] := rfl

theorem tbl4_badDays : cps_badDays tbl4 wdA [] = [] := rfl

theorem tbl4_totalDistance : cps_totalDistance tbl4 [] = 100 := by
  simp [cps_totalDistance, tbl4_rows,
    show cps_distanceCol tbl4 = some "distance_travelled_actual" from rfl,
    sumCol, row4c, getVal_cons, getVal_nil, valToNum]

theorem tbl4_goodTime : cps_goodTime tbl4 wdA [] = 0 := by
  simp [cps_goodTime, tbl4_goodDays,
    show cps_timeCol tbl4 = some "steaming_time_hrs" from rfl, sumCol]

theorem tbl4_goodSpeed : cps_goodSpeed tbl4 wdA [] = 0 := by
  rw [cps_goodSpeed, tbl4_goodTime]
  norm_num

theorem tbl4_effectiveSpeed : cps_effectiveSpeed tbl4 terms13 wdA [] = 25/2 := by
  rw [cps_effectiveSpeed, tbl4_goodSpeed,
    show warrantedSpeedOf terms13 = 13 from rfl, effectiveSpeed, speed_tolerance_knots]
  norm_num

theorem tbl4_divSafe : cps_divSafe tbl4 terms13 wdA [] := by
  refine ⟨?_, ?_, ?_⟩
  · rw [tbl4_effectiveSpeed]
    norm_num
  · rw [show warrantedSpeedOf terms13 = 13 from rfl, speed_tolerance_knots]
    norm_num
  · rw [show warrantedSpeedOf terms13 = 13 from rfl, speed_tolerance_knots]
    norm_num

theorem tbl4_app_rows : app_rows tbl4 = [row4a] := rfl

theorem tbl4_app_goodDays : app_goodDays tbl4 = [row4a] := rfl

theorem tbl4_app_totalDistance : app_totalDistance tbl4 = 100 := by
  simp [app_totalDistance, tbl4_app_rows, sumCol, row4a, getVal_cons, getVal_nil, valToNum]

theorem tbl4_app_goodDistance : app_goodDistance tbl4 = 100 := by
  simp [app_goodDistance, tbl4_app_goodDays, sumCol, row4a, getVal_cons, getVal_nil, valToNum]

theorem tbl4_app_goodTime : app_goodTime tbl4 = 10 := by
  simp [app_goodTime, tbl4_app_goodDays, sumCol, row4a, getVal_cons, getVal_nil, valToNum]

theorem tbl4_app_goodFuel : app_goodFuel tbl4 = 20 := by
  simp [app_goodFuel, tbl4_app_goodDays, sumCol, row4a, getVal_cons, getVal_nil, valToNum]

theorem tbl4_app_goodSpeed : app_goodSpeed tbl4 = 10 := by
  rw [app_goodSpeed, tbl4_app_goodDistance, tbl4_app_goodTime]
  norm_num

theorem tbl4_app_goodFoHr : app_goodFoHr tbl4 = 2 := by
  rw [app_goodFoHr, tbl4_app_goodFuel, tbl4_app_goodTime]
  norm_num

theorem tbl4_app_goodFoDay : app_goodFoDay tbl4 = 48 := by
  rw [app_goodFoDay, tbl4_app_goodFoHr]
  norm_num

theorem tbl4_app_effectiveSpeed : app_effectiveSpeed tbl4 terms13 = 25/2 := by
  rw [app_effectiveSpeed, tbl4_app_goodSpeed,
    show warrantedSpeedOf terms13 = 13 from rfl, app_speedCondition, speed_tolerance_knots]
  norm_num

theorem tbl4_app_divSafe : app_divSafe tbl4 terms13 := by
  refine ⟨?_, ?_, ?_⟩
  · rw [tbl4_app_effectiveSpeed]
    norm_num
  · rw [show warrantedSpeedOf terms13 = 13 from rfl, speed_tolerance_knots]
    norm_num
  · rw [show warrantedSpeedOf terms13 = 13 from rfl, speed_tolerance_knots]
    norm_num

theorem tblC3_goodTime : cps_goodTime tblC3 wdA [] = 24 := by
  simp [cps_goodTime,
    show cps_goodDays tblC3 wdA [] =
      [[("event_type", Val.missing), ("me_fuel_consumed", Val.num 20),
        ("steaming_time_hrs", Val.num 24)]] from rfl,
    show cps_timeCol tblC3 = some "steaming_time_hrs" from rfl,
    sumCol, getVal_cons, getVal_nil, valToNum]

theorem tblC3_goodSpeed : cps_goodSpeed tblC3 wdA [] = 0 := by
  rw [cps_goodSpeed, tblC3_goodTime,
    show cps_goodDistance tblC3 wdA [] = 0 from by
      simp [cps_goodDistance, show cps_distanceCol tblC3 = none from rfl, sumCol]]
  norm_num

theorem tblC7_rows : cps_rows tblC7 [] = [rowC7] := rfl

theorem tblC7_goodDays : cps_goodDays tblC7 wdA [] = [rowC7] := rfl

theorem tblC7_totalDistance : cps_totalDistance tblC7 [] = 1 := by
  simp [cps_totalDistance, tblC7_rows, show cps_distanceCol tblC7 = some "distance" from rfl,
    sumCol, rowC7, getVal_cons, getVal_nil, valToNum]

theorem tblC7_goodDistance : cps_goodDistance tblC7 wdA [] = 1 := by
  simp [cps_goodDistance, tblC7_goodDays, show cps_distanceCol tblC7 = some "distance" from rfl,
    sumCol, rowC7, getVal_cons, getVal_nil, valToNum]

theorem tblC7_goodTime : cps_goodTime tblC7 wdA [] = 2 := by
  simp [cps_goodTime, tblC7_goodDays, show cps_timeCol tblC7 = some "steaming_time_hrs" from rfl,
    sumCol, rowC7, getVal_cons, getVal_nil, valToNum]

theorem tblC7_goodFuel : cps_goodFuel tblC7 wdA [] = -17/10 := by
  simp [cps_goodFuel, tblC7_goodDays, show cps_fuelCol tblC7 = some "me_fuel_consumed" from rfl,
    sumCol, rowC7, getVal_cons, getVal_nil, valToNum]

theorem tblC7_goodSpeed : cps_goodSpeed tblC7 wdA [] = 1/2 := by
  rw [cps_goodSpeed, tblC7_goodDistance, tblC7_goodTime]
  norm_num

theorem tblC7_goodFoDay : cps_goodFoDay tblC7 wdA [] = -102/5 := by
  rw [cps_goodFoDay, cps_goodFoHr, tblC7_goodFuel, tblC7_goodTime]
  norm_num

theorem tblC7_effectiveSpeed : cps_effectiveSpeed tblC7 terms0 wdA [] = -1/2 := by
  rw [cps_effectiveSpeed, tblC7_goodSpeed,
    show warrantedSpeedOf terms0 = 0 from rfl, effectiveSpeed, speed_tolerance_knots]
  norm_num

theorem tblC7_divSafe : cps_divSafe tblC7 terms0 wdA [] := by
  refine ⟨?_, ?_, ?_⟩
  · rw [tblC7_effectiveSpeed]
    norm_num
  · rw [show warrantedSpeedOf terms0 = 0 from rfl, speed_tolerance_knots]
    norm_num
  · rw [show warrantedSpeedOf terms0 = 0 from rfl, speed_tolerance_knots]
    norm_num

/-- Replacing the cell at row `i` of one of charterparty_app's fixed numeric
columns by any cell with the same numeric reading leaves
`perform_calculations` unchanged. -/
theorem perform_updateCell_congr (cp : List CPTerm) (df : Table) (i : ℕ) (c : String)
    (v1 v2 : Val) (hc : c ∈ appNumericCols) (hv : valToNum v1 = valToNum v2) :
    perform_calculations cp (updateCell df i c v1) =
      perform_calculations cp (updateCell df i c v2) := by
  have hctl : ∀ x ∈ appNumericCols, x ≠ "event_type" ∧ x ≠ "day_status" := by decide
  obtain ⟨hev, hds⟩ := hctl c hc
  set df1 := updateCell df i c v1 with hdf1
  set df2 := updateCell df i c v2 with hdf2
  have hrel0 : List.Forall₂ (RowRel c) df1.rows df2.rows := by
    refine forall₂_rowRel_set c df.rows i _ _ ⟨fun k hk => ?_, ?_⟩
    · rw [getVal_setVal_ne _ _ _ _ hk, getVal_setVal_ne _ _ _ _ hk]
    · rw [getVal_setVal_self, getVal_setVal_self]
      exact hv
  have hrel1 : List.Forall₂ (RowRel c) (app_filteredRows df1) (app_filteredRows df2) := by
    simp only [app_filteredRows]
    refine forall₂_rowRel_filter c _ _ _ hrel0 (fun r1 r2 hr => ?_)
    rw [hr.1 "event_type" (Ne.symm hev)]
  have hrel2 : List.Forall₂ (RowRel c) (app_rows df1) (app_rows df2) := by
    simp only [app_rows]
    exact forall₂_rowRel_map c _ _ _ hrel1
      (fun r1 r2 hr => rowRel_coerceRow c appNumericCols r1 r2 hr)
  have hrelG : List.Forall₂ (RowRel c) (app_goodDays df1) (app_goodDays df2) := by
    simp only [app_goodDays]
    refine forall₂_rowRel_filter c _ _ _ hrel2 (fun r1 r2 hr => ?_)
    rw [hr.1 "day_status" (Ne.symm hds)]
  have hrelB : List.Forall₂ (RowRel c) (app_badDays df1) (app_badDays df2) := by
    simp only [app_badDays]
    refine forall₂_rowRel_filter c _ _ _ hrel2 (fun r1 r2 hr => ?_)
    rw [hr.1 "day_status" (Ne.symm hds)]
  have hTD : app_totalDistance df1 = app_totalDistance df2 := by
    simp only [app_totalDistance]
    exact sumCol_congr_of_rel c _ _ _ hrel2
  have hTT : app_totalTime df1 = app_totalTime df2 := by
    simp only [app_totalTime]
    exact sumCol_congr_of_rel c _ _ _ hrel2
  have hTF : app_totalFuel df1 = app_totalFuel df2 := by
    simp only [app_totalFuel]
    exact sumCol_congr_of_rel c _ _ _ hrel2
  have hGD : app_goodDistance df1 = app_goodDistance df2 := by
    simp only [app_goodDistance]
    exact sumCol_congr_of_rel c _ _ _ hrelG
  have hGT : app_goodTime df1 = app_goodTime df2 := by
    simp only [app_goodTime]
    exact sumCol_congr_of_rel c _ _ _ hrelG
  have hGF : app_goodFuel df1 = app_goodFuel df2 := by
    simp only [app_goodFuel]
    exact sumCol_congr_of_rel c _ _ _ hrelG
  have hBD : app_badDistance df1 = app_badDistance df2 := by
    simp only [app_badDistance]
    exact sumCol_congr_of_rel c _ _ _ hrelB
  have hBT : app_badTime df1 = app_badTime df2 := by
    simp only [app_badTime]
    exact sumCol_congr_of_rel c _ _ _ hrelB
  have hBF : app_badFuel df1 = app_badFuel df2 := by
    simp only [app_badFuel]
    exact sumCol_congr_of_rel c _ _ _ hrelB
  have hVAS : app_voyageAvgSpeed df1 = app_voyageAvgSpeed df2 := by
    simp only [app_voyageAvgSpeed, hTD, hTT]
  have hGS : app_goodSpeed df1 = app_goodSpeed df2 := by
    simp only [app_goodSpeed, hGD, hGT]
  have hGH : app_goodFoHr df1 = app_goodFoHr df2 := by
    simp only [app_goodFoHr, hGF, hGT]
  have hGDay : app_goodFoDay df1 = app_goodFoDay df2 := by
    simp only [app_goodFoDay, hGH]
  have hBS : app_badSpeed df1 = app_badSpeed df2 := by
    simp only [app_badSpeed, hBD, hBT]
  have hEff : ∀ cpx, app_effectiveSpeed df1 cpx = app_effectiveSpeed df2 cpx := by
    intro cpx
    simp only [app_effectiveSpeed, hGS]
  have hEV : app_entireVoyageCons df1 = app_entireVoyageCons df2 := by
    simp only [app_entireVoyageCons, hGS, hTD, hGDay]
  have hMaxF : ∀ cpx, app_maxWarrantedFo df1 cpx = app_maxWarrantedFo df2 cpx := by
    intro cpx
    simp only [app_maxWarrantedFo, hTD, hEff cpx]
  have hMinF : ∀ cpx, app_minWarrantedFo df1 cpx = app_minWarrantedFo df2 cpx := by
    intro cpx
    simp only [app_minWarrantedFo, hTD, hEff cpx]
  have hTAG : ∀ cpx, app_timeAtGoodSpd df1 cpx = app_timeAtGoodSpd df2 cpx := by
    intro cpx
    simp only [app_timeAtGoodSpd, hTD, hEff cpx]
  have hMaxT : ∀ cpx, app_maxTime df1 cpx = app_maxTime df2 cpx := by
    intro cpx
    simp only [app_maxTime, hTD]
  have hMinT : ∀ cpx, app_minTime df1 cpx = app_minTime df2 cpx := by
    intro cpx
    simp only [app_minTime, hTD]
  have hRes : ∀ cpx, app_results df1 cpx = app_results df2 cpx := by
    intro cpx
    simp only [app_results, hTD, hTT, hTF, hVAS, hGD, hGT, hGF, hGS, hGH, hGDay,
      hBD, hBT, hBF, hBS, hEV, hMaxF cpx, hMinF cpx, hTAG cpx, hMaxT cpx, hMinT cpx]
  cases cp with
  | nil => rfl
  | cons t ts =>
    simp only [perform_calculations]
    rw [show df1.cols = df.cols from rfl, show df2.cols = df.cols from rfl]
    cases hfind : appRequiredCols.find? (fun cx => !df.cols.contains cx) with
    | some cbad => rfl
    | none =>
      have hSafe : app_divSafe df1 (t :: ts) ↔ app_divSafe df2 (t :: ts) := by
        rw [app_divSafe, app_divSafe, hEff (t :: ts)]
      rw [hRes (t :: ts)]
      by_cases h : app_divSafe df2 (t :: ts)
      · rw [if_pos (hSafe.mpr h), if_pos h]
      · rw [if_neg (fun hh => h (hSafe.mp hh)), if_neg h]

/-- C1 (counterexample): with an empty CP-term list, `process_calculation_data`
does NOT report a configuration error — it completes and produces a
ReconciliationResult, whose `max_warranted_fo` of 7 MT comes from the
fabricated default warranted speed 13 kn and consumption 20 MT/day. -/
theorem C1_counterexample :
    exIsOk (process_calculation_data tblA [] wdA []) = true ∧
    (exOk (process_calculation_data tblA [] wdA [])).map Results.max_warranted_fo = some 7 := by
  have hsafe := tblA_divSafe [] rfl
  have hplus : warrantedPlusTol [] = 21 := by
    norm_num [warrantedPlusTol, fuelToleranceMt, warrantedConsumptionOf, fuel_tolerance_percent]
  constructor
  · rw [process_calculation_data, if_pos hsafe]
    rfl
  · rw [process_calculation_data, if_pos hsafe]
    simp only [exOk, Option.map_some', Option.some.injEq, cps_results]
    rw [cps_maxWarrantedFo, tblA_totalDistance, tblA_effectiveSpeed [] rfl, hplus]
    norm_num

/-- C1 (amended): only `perform_calculations` reports the missing-CP-term
configuration error and produces no result; `process_calculation_data`
instead proceeds exactly as if the fabricated default term
(13 kn, 20 MT/day) had been entered. -/
theorem C1_amended :
    (∀ df : Table, perform_calculations [] df = Except.error CalcError.noCpTerms) ∧
    (∀ (df : Table) (wd : WeatherDef) (ep : List ExclusionPeriod),
      process_calculation_data df [] wd ep =
        process_calculation_data df [{ speed := 13, me_consumption := 20, ae_consumption := 0 }] wd ep) := by
  constructor
  · intro df
    rfl
  · intro df wd ep
    rfl

/-- C2 (counterexample): on a table in which no column matches any distance
alias, `perform_calculations` does not complete — it raises `KeyError` for
its fixed column `distance_travelled_actual`. -/
theorem C2_counterexample :
    perform_calculations terms13 tblB =
      Except.error (CalcError.keyError "distance_travelled_actual") := rfl

/-- C2 (amended): in `process_calculation_data`, provided the selected
warranted speed exceeds the 0.5 kn speed tolerance (which rules out the
separate zero-denominator defect of C3), the run always completes without
raising; a canonical field with no matching alias contributes `0` to the
total, good-weather and bad-weather sums that depend on it; and replacing
any cell of a resolved numeric column by an unparsable string is
indistinguishable from replacing it by a literal `0`, in both calculation
variants. -/
theorem C2_amended :
    (∀ (df : Table) (cp : List CPTerm) (wd : WeatherDef) (ep : List ExclusionPeriod),
      speed_tolerance_knots < warrantedSpeedOf cp →
      exIsOk (process_calculation_data df cp wd ep) = true) ∧
    (∀ (df : Table) (wd : WeatherDef) (ep : List ExclusionPeriod),
      (cps_distanceCol df = none →
        cps_totalDistance df ep = 0 ∧ cps_goodDistance df wd ep = 0 ∧
          cps_badDistance df wd ep = 0) ∧
      (cps_timeCol df = none →
        cps_totalTime df ep = 0 ∧ cps_goodTime df wd ep = 0 ∧ cps_badTime df wd ep = 0) ∧
      (cps_fuelCol df = none →
        cps_totalFuel df ep = 0 ∧ cps_goodFuel df wd ep = 0 ∧ cps_badFuel df wd ep = 0)) ∧
    (∀ (df : Table) (cp : List CPTerm) (wd : WeatherDef) (ep : List ExclusionPeriod)
        (i : ℕ) (c : String) (s : String), c ∈ cps_numericCols df →
      process_calculation_data (updateCell df i c (Val.str s)) cp wd ep =
        process_calculation_data (updateCell df i c (Val.num 0)) cp wd ep) ∧
    (∀ (cp : List CPTerm) (df : Table) (i : ℕ) (c : String) (s : String),
        c ∈ appNumericCols →
      perform_calculations cp (updateCell df i c (Val.str s)) =
        perform_calculations cp (updateCell df i c (Val.num 0))) := by
  refine ⟨?_, ?_, ?_, ?_⟩
  · intro df cp wd ep hW
    have hsafe : cps_divSafe df cp wd ep := by
      rw [cps_divSafe]
      refine ⟨?_, ?_, ?_⟩
      · rw [cps_effectiveSpeed]
        exact ne_of_gt (effectiveSpeed_pos _ _ hW)
      · rw [speed_tolerance_knots] at hW ⊢
        intro h
        linarith
      · rw [speed_tolerance_knots] at hW ⊢
        intro h
        linarith
    rw [process_calculation_data, if_pos hsafe]
    rfl
  · intro df wd ep
    refine ⟨fun h => ⟨?_, ?_, ?_⟩, fun h => ⟨?_, ?_, ?_⟩, fun h => ⟨?_, ?_, ?_⟩⟩ <;>
      simp [cps_totalDistance, cps_goodDistance, cps_badDistance, cps_totalTime,
        cps_goodTime, cps_badTime, cps_totalFuel, cps_goodFuel, cps_badFuel, h, sumCol]
  · intro df cp wd ep i c s hc
    exact process_updateCell_congr df cp wd ep i c _ _ hc rfl
  · intro cp df i c s hc
    exact perform_updateCell_congr cp df i c _ _ hc rfl

/-- C2 (witness): the amended statement exercised concretely — a plain run
completes; the missing-distance table sums distance to 0; and swapping an
unparsable string for a literal zero in a numeric column changes nothing in
either variant. -/
theorem C2_witness :
    exIsOk (process_calculation_data tblA terms13 wdA []) = true ∧
    cps_totalDistance tblC3 [] = 0 ∧
    process_calculation_data (updateCell tblA 0 "distance" (Val.str "N/A")) terms13 wdA [] =
      process_calculation_data (updateCell tblA 0 "distance" (Val.num 0)) terms13 wdA [] ∧
    perform_calculations terms13 (updateCell tbl4 0 "distance_travelled_actual" (Val.str "N/A")) =
      perform_calculations terms13 (updateCell tbl4 0 "distance_travelled_actual" (Val.num 0)) := by
  refine ⟨?_, ?_, ?_, ?_⟩
  · exact C2_amended.1 tblA terms13 wdA []
      (by norm_num [terms13, warrantedSpeedOf, speed_tolerance_knots])
  · exact ((C2_amended.2.1 tblC3 wdA []).1 rfl).1
  · exact C2_amended.2.2.1 tblA terms13 wdA [] 0 "distance" "N/A" (by decide)
  · exact C2_amended.2.2.2 terms13 tbl4 0 "distance_travelled_actual" "N/A" (by decide)

/-- C3 (code_bug): the CP-term entry forms accept a warranted speed equal to
the 0.5 kn speed tolerance (and even an all-zero term) — no validation error
is reported at input acceptance — and on such a term the Reconciler goes on
to evaluate `total_distance / effective_speed` with the zero denominator
`warranted_speed - 0.5`, i.e. the run dies with `ZeroDivisionError` instead
of a validation error. -/
theorem C3_theorem :
    acceptCpTerm { speed := 1/2, me_consumption := 20, ae_consumption := 0 } = true ∧
    acceptCpTerm { speed := 0, me_consumption := 0, ae_consumption := 0 } = true ∧
    exErr (process_calculation_data tblC3
      [{ speed := 1/2, me_consumption := 20, ae_consumption := 0 }] wdA []) =
      some CalcError.divByZero := by
  refine ⟨?_, ?_, ?_⟩
  · simp only [acceptCpTerm, Bool.and_eq_true, decide_eq_true_eq]
    norm_num
  · simp only [acceptCpTerm, Bool.and_eq_true, decide_eq_true_eq]
    norm_num
  · have heff : cps_effectiveSpeed tblC3
        [{ speed := 1/2, me_consumption := 20, ae_consumption := 0 }] wdA [] = 0 := by
      rw [cps_effectiveSpeed, tblC3_goodSpeed,
        show warrantedSpeedOf [{ speed := 1/2, me_consumption := 20, ae_consumption := 0 }] =
          1/2 from rfl, effectiveSpeed, speed_tolerance_knots]
      norm_num
    rw [process_calculation_data, if_neg]
    · rfl
    · rintro ⟨h1, -, -⟩
      exact h1 heff

/-- C4 (counterexample): on an identical input (fixed charterparty_app column
names, a single GOOD-weather noon report, the same CP term) the two variants
disagree on the ReconciliationResult metric values: c.CPsuite's numeric
coercion of the `day_status` column empties the good-weather class, so it
reports a fuel saving of 19/3 MT where charterparty_app reports 0. -/
theorem C4_counterexample :
    (exOk (process_calculation_data tbl4 terms13 wdA [])).map Results.fuel_saving =
      some (19/3) ∧
    (exOk (perform_calculations terms13 tbl4)).map Results.fuel_saving = some 0 ∧
    ((19 : ℚ)/3 ≠ 0) := by
  have hminus : warrantedMinusTol terms13 = 19 := by
    norm_num [warrantedMinusTol, fuelToleranceMt, warrantedConsumptionOf, terms13,
      fuel_tolerance_percent]
  refine ⟨?_, ?_, by norm_num⟩
  · rw [process_calculation_data, if_pos tbl4_divSafe]
    simp only [exOk, Option.map_some', Option.some.injEq, cps_results]
    have hE : cps_entireVoyageCons tbl4 wdA [] = 0 := by
      rw [cps_entireVoyageCons, tbl4_goodSpeed]
      norm_num
    rw [hE, cps_minWarrantedFo, tbl4_totalDistance, tbl4_effectiveSpeed, hminus]
    norm_num
  · have hstep : perform_calculations terms13 tbl4 =
        if app_divSafe tbl4 terms13 then Except.ok (app_results tbl4 terms13)
        else Except.error CalcError.divByZero := rfl
    rw [hstep, if_pos tbl4_app_divSafe]
    simp only [exOk, Option.map_some', Option.some.injEq, app_results]
    have hE : app_entireVoyageCons tbl4 = 20 := by
      rw [app_entireVoyageCons, tbl4_app_goodSpeed, tbl4_app_totalDistance, tbl4_app_goodFoDay]
      norm_num
    rw [hE, app_minWarrantedFo, tbl4_app_totalDistance, tbl4_app_effectiveSpeed, hminus]
    norm_num

/-- C4 (amended): on tables carrying exactly the fixed charterparty_app
column set, the two variants do agree on the pre-weather voyage totals
(distance, steaming time, fuel); their weather-segmented metrics and the
band-edge effective speed disagree in general, as the counterexample and the
C5 boundary theorem show. -/
theorem C4_amended (rows : List Row) (ep : List ExclusionPeriod) :
    cps_totalDistance ⟨appRequiredCols, rows⟩ ep = app_totalDistance ⟨appRequiredCols, rows⟩ ∧
    cps_totalTime ⟨appRequiredCols, rows⟩ ep = app_totalTime ⟨appRequiredCols, rows⟩ ∧
    cps_totalFuel ⟨appRequiredCols, rows⟩ ep = app_totalFuel ⟨appRequiredCols, rows⟩ := by
  have hbase : cps_rows ⟨appRequiredCols, rows⟩ ep =
      (app_filteredRows ⟨appRequiredCols, rows⟩).map (coerceRow cps5cols) := rfl
  have happ : app_rows ⟨appRequiredCols, rows⟩ =
      (app_filteredRows ⟨appRequiredCols, rows⟩).map (coerceRow appNumericCols) := rfl
  refine ⟨?_, ?_, ?_⟩
  · rw [cps_totalDistance, app_totalDistance,
      show cps_distanceCol ⟨appRequiredCols, rows⟩ = some "distance_travelled_actual" from rfl,
      hbase, happ, sumCol_some, sumCol_some, List.map_map, List.map_map]
    apply map_sum_congr
    intro r
    simp only [Function.comp]
    rw [getVal_coerceRow, getVal_coerceRow, if_pos (by decide), if_pos (by decide)]
  · rw [cps_totalTime, app_totalTime,
      show cps_timeCol ⟨appRequiredCols, rows⟩ = some "steaming_time_hrs" from rfl,
      hbase, happ, sumCol_some, sumCol_some, List.map_map, List.map_map]
    apply map_sum_congr
    intro r
    simp only [Function.comp]
    rw [getVal_coerceRow, getVal_coerceRow, if_pos (by decide), if_pos (by decide)]
  · rw [cps_totalFuel, app_totalFuel,
      show cps_fuelCol ⟨appRequiredCols, rows⟩ = some "me_fuel_consumed" from rfl,
      hbase, happ, sumCol_some, sumCol_some, List.map_map, List.map_map]
    apply map_sum_congr
    intro r
    simp only [Function.comp]
    rw [getVal_coerceRow, getVal_coerceRow, if_pos (by decide), if_pos (by decide)]

/-- C5 (counterexample): at a good speed exactly on the upper band edge
(10.5 kn against 10 kn warranted), charterparty_app's `speed_condition`
yields 10.5 — not the 9.5 that the claimed three-case rule (followed by
c.CPsuite) produces. -/
theorem C5_counterexample :
    app_speedCondition (21/2) 10 = 21/2 ∧ specEffectiveSpeed (21/2) 10 = 19/2 ∧
    effectiveSpeed (21/2) 10 = 19/2 ∧ ((21 : ℚ)/2 ≠ 19/2) := by
  refine ⟨?_, ?_, ?_, by norm_num⟩ <;>
    norm_num [app_speedCondition, specEffectiveSpeed, effectiveSpeed, speed_tolerance_knots]

/-- C5 (amended): the three-case effective-speed rule as specified holds
verbatim for c.CPsuite's clamp at every input; charterparty_app's clamp
agrees with it at every input except a good speed exactly equal to
warranted + 0.5 kn, where it returns warranted + 0.5 instead of
warranted − 0.5. -/
theorem C5_amended :
    (∀ gs W : ℚ, effectiveSpeed gs W = specEffectiveSpeed gs W) ∧
    (∀ gs W : ℚ, gs ≠ W + speed_tolerance_knots →
      app_speedCondition gs W = specEffectiveSpeed gs W) ∧
    (∀ W : ℚ, app_speedCondition (W + speed_tolerance_knots) W =
      W + speed_tolerance_knots) :=
  ⟨effectiveSpeed_eq_spec, app_speedCondition_eq_spec, app_speedCondition_boundary⟩

/-- C5 (witness): the amended agreement applied at the concrete off-boundary
input (3 kn observed, 10 kn warranted). -/
theorem C5_witness : app_speedCondition 3 10 = specEffectiveSpeed 3 10 :=
  C5_amended.2.1 3 10 (by norm_num [speed_tolerance_knots])

/-- Inversion of a successful c.CPsuite run. -/
theorem process_ok_elim (df : Table) (cp : List CPTerm) (wd : WeatherDef)
    (ep : List ExclusionPeriod) (r : Results)
    (h : process_calculation_data df cp wd ep = Except.ok r) :
    cps_divSafe df cp wd ep ∧ r = cps_results df cp wd ep := by
  rw [process_calculation_data] at h
  split_ifs at h with hs
  exact ⟨hs, (Except.ok.inj h).symm⟩

/-- Inversion of a successful charterparty_app run. -/
theorem perform_ok_elim (cp : List CPTerm) (df : Table) (r : Results)
    (h : perform_calculations cp df = Except.ok r) :
    cp ≠ [] ∧ app_divSafe df cp ∧ r = app_results df cp := by
  cases cp with
  | nil => exact absurd h (by simp [perform_calculations])
  | cons t ts =>
    refine ⟨by simp, ?_⟩
    simp only [perform_calculations] at h
    cases hfind : appRequiredCols.find? (fun cx => !df.cols.contains cx) with
    | some cbad =>
      simp only [hfind] at h
      exact absurd h (by simp)
    | none =>
      simp only [hfind] at h
      split_ifs at h with hs
      exact ⟨hs, (Except.ok.inj h).symm⟩

/-- C6: in both variants, whenever a run completes, the entire-voyage
consumption equals total distance over the UNCLAMPED observed good speed
times the daily good-weather fuel rate over 24 when that speed is positive,
and is 0 when the good speed is 0 (the guarded branch, no division
attempted). -/
theorem C6_theorem :
    (∀ (df : Table) (cp : List CPTerm) (wd : WeatherDef) (ep : List ExclusionPeriod)
        (r : Results), process_calculation_data df cp wd ep = Except.ok r →
      (0 < r.good_wx_speed →
        r.entire_voyage_cons =
          r.total_distance / r.good_wx_speed * (r.good_wx_fo_rate_day / 24)) ∧
      (r.good_wx_speed = 0 → r.entire_voyage_cons = 0)) ∧
    (∀ (cp : List CPTerm) (df : Table) (r : Results),
        perform_calculations cp df = Except.ok r →
      (0 < r.good_wx_speed →
        r.entire_voyage_cons =
          r.total_distance / r.good_wx_speed * (r.good_wx_fo_rate_day / 24)) ∧
      (r.good_wx_speed = 0 → r.entire_voyage_cons = 0)) := by
  constructor
  · intro df cp wd ep r h
    obtain ⟨-, rfl⟩ := process_ok_elim df cp wd ep r h
    constructor
    · intro h0
      simp only [cps_results] at h0 ⊢
      rw [cps_entireVoyageCons, if_pos h0]
    · intro h0
      simp only [cps_results] at h0 ⊢
      rw [cps_entireVoyageCons, h0, if_neg (lt_irrefl 0)]
  · intro cp df r h
    obtain ⟨-, -, rfl⟩ := perform_ok_elim cp df r h
    constructor
    · intro h0
      simp only [app_results] at h0 ⊢
      rw [app_entireVoyageCons, if_pos (ne_of_gt h0)]
    · intro h0
      simp only [app_results] at h0 ⊢
      rw [app_entireVoyageCons, h0, if_neg (fun hh => hh rfl)]

/-- C6 (witness): the relation exercised on a concrete positive-good-speed
run, and the zero-good-speed run producing zero consumption. -/
theorem C6_witness :
    (cps_results tblA terms13 wdA []).entire_voyage_cons =
      (cps_results tblA terms13 wdA []).total_distance /
        (cps_results tblA terms13 wdA []).good_wx_speed *
        ((cps_results tblA terms13 wdA []).good_wx_fo_rate_day / 24) ∧
    (cps_results tbl4 terms13 wdA []).entire_voyage_cons = 0 := by
  have h1 : process_calculation_data tblA terms13 wdA [] =
      Except.ok (cps_results tblA terms13 wdA []) := by
    rw [process_calculation_data, if_pos (tblA_divSafe terms13 rfl)]
  have h2 : process_calculation_data tbl4 terms13 wdA [] =
      Except.ok (cps_results tbl4 terms13 wdA []) := by
    rw [process_calculation_data, if_pos tbl4_divSafe]
  refine ⟨(C6_theorem.1 tblA terms13 wdA [] _ h1).1 ?_,
    (C6_theorem.1 tbl4 terms13 wdA [] _ h2).2 ?_⟩
  · simp only [cps_results]
    rw [tblA_goodSpeed]
    norm_num
  · simp only [cps_results]
    exact tbl4_goodSpeed

/-- C7 (counterexample): with the accepted zero-speed CP term and a one-row
table holding a malformed (negative) fuel figure, the c.CPsuite run
completes with fuel_overconsumption = 1/20 MT AND fuel_saving = 7/60 MT —
both nonzero, refuting the at-most-one claim. -/
theorem C7_counterexample :
    (exOk (process_calculation_data tblC7 terms0 wdA [])).map
        (fun r => (r.fuel_overconsumption, r.fuel_saving)) = some (1/20, 7/60) ∧
    ¬((1 : ℚ)/20 = 0 ∨ (7 : ℚ)/60 = 0) := by
  refine ⟨?_, by norm_num⟩
  rw [process_calculation_data, if_pos tblC7_divSafe]
  simp only [exOk, Option.map_some', Option.some.injEq, cps_results]
  have hE : cps_entireVoyageCons tblC7 wdA [] = -17/10 := by
    rw [cps_entireVoyageCons, tblC7_goodSpeed, tblC7_totalDistance, tblC7_goodFoDay]
    norm_num
  have hmax : cps_maxWarrantedFo tblC7 terms0 wdA [] = -7/4 := by
    rw [cps_maxWarrantedFo, tblC7_totalDistance, tblC7_effectiveSpeed,
      show warrantedPlusTol terms0 = 21 from by
        norm_num [warrantedPlusTol, fuelToleranceMt, warrantedConsumptionOf, terms0,
          fuel_tolerance_percent]]
    norm_num
  have hmin : cps_minWarrantedFo tblC7 terms0 wdA [] = -19/12 := by
    rw [cps_minWarrantedFo, tblC7_totalDistance, tblC7_effectiveSpeed,
      show warrantedMinusTol terms0 = 19 from by
        norm_num [warrantedMinusTol, fuelToleranceMt, warrantedConsumptionOf, terms0,
          fuel_tolerance_percent]]
    norm_num
  rw [hE, hmax, hmin]
  have e1 : max 0 ((-17/10 : ℚ) - -7/4) = 1/20 := by
    rw [show ((-17/10 : ℚ) - -7/4) = 1/20 from by norm_num]
    exact max_eq_right (by norm_num)
  have e2 : max 0 ((-19/12 : ℚ) - -17/10) = 7/60 := by
    rw [show ((-19/12 : ℚ) - -17/10) = 7/60 from by norm_num]
    exact max_eq_right (by norm_num)
  rw [e1, e2]

/-- C7 (amended): the at-most-one properties do hold on every completed run
whose inputs respect the data model — non-negative total distance,
warranted speed above the 0.5 kn tolerance and non-negative warranted
consumption — in both variants. -/
theorem C7_amended :
    (∀ (df : Table) (cp : List CPTerm) (wd : WeatherDef) (ep : List ExclusionPeriod)
        (r : Results), process_calculation_data df cp wd ep = Except.ok r →
      0 ≤ r.total_distance →
      speed_tolerance_knots < warrantedSpeedOf cp →
      0 ≤ warrantedConsumptionOf cp →
      (r.fuel_overconsumption = 0 ∨ r.fuel_saving = 0) ∧
      (r.time_gained = 0 ∨ r.time_lost = 0)) ∧
    (∀ (cp : List CPTerm) (df : Table) (r : Results),
        perform_calculations cp df = Except.ok r →
      0 ≤ r.total_distance →
      speed_tolerance_knots < warrantedSpeedOf cp →
      0 ≤ warrantedConsumptionOf cp →
      (r.fuel_overconsumption = 0 ∨ r.fuel_saving = 0) ∧
      (r.time_gained = 0 ∨ r.time_lost = 0)) := by
  have hst : (0 : ℚ) < speed_tolerance_knots := by
    rw [speed_tolerance_knots]
    norm_num
  constructor
  · intro df cp wd ep r h htd hW hwc
    obtain ⟨-, rfl⟩ := process_ok_elim df cp wd ep r h
    simp only [cps_results] at htd ⊢
    have heff : 0 < cps_effectiveSpeed df cp wd ep := by
      rw [cps_effectiveSpeed]
      exact effectiveSpeed_pos _ _ hW
    have hdiv : 0 ≤ cps_totalDistance df ep / cps_effectiveSpeed df cp wd ep :=
      div_nonneg htd (le_of_lt heff)
    have hft : 0 ≤ fuelToleranceMt cp := by
      rw [fuelToleranceMt, fuel_tolerance_percent]
      exact mul_nonneg hwc (by norm_num)
    have hMfo : cps_minWarrantedFo df cp wd ep ≤ cps_maxWarrantedFo df cp wd ep := by
      rw [cps_minWarrantedFo, cps_maxWarrantedFo, warrantedMinusTol, warrantedPlusTol]
      exact mul_le_mul_of_nonneg_left (by linarith) hdiv
    constructor
    · by_cases h1 :
        max 0 (cps_entireVoyageCons df wd ep - cps_maxWarrantedFo df cp wd ep) = 0
      · exact Or.inl h1
      · exact Or.inr (max_eq_left (by linarith [pos_of_max_ne_zero _ h1]))
    · have hMt : cps_minTimeAtWarrantedSpd df cp ep ≤ cps_maxTimeAtWarrantedSpd df cp ep := by
        rw [cps_minTimeAtWarrantedSpd, cps_maxTimeAtWarrantedSpd]
        gcongr
        all_goals first
        | exact htd
        | linarith
      by_cases h1 :
        max 0 (cps_minTimeAtWarrantedSpd df cp ep - cps_timeAtGoodWxSpeed df cp wd ep) = 0
      · exact Or.inl h1
      · exact Or.inr (max_eq_left (by linarith [pos_of_max_ne_zero _ h1]))
  · intro cp df r h htd hW hwc
    obtain ⟨-, -, rfl⟩ := perform_ok_elim cp df r h
    simp only [app_results] at htd ⊢
    have heff : 0 < app_effectiveSpeed df cp := by
      rw [app_effectiveSpeed]
      exact app_speedCondition_pos _ _ hW
    have hdiv : 0 ≤ app_totalDistance df / app_effectiveSpeed df cp :=
      div_nonneg htd (le_of_lt heff)
    have hft : 0 ≤ fuelToleranceMt cp := by
      rw [fuelToleranceMt, fuel_tolerance_percent]
      exact mul_nonneg hwc (by norm_num)
    have hMfo : app_minWarrantedFo df cp ≤ app_maxWarrantedFo df cp := by
      rw [app_minWarrantedFo, app_maxWarrantedFo, warrantedMinusTol, warrantedPlusTol]
      exact mul_le_mul_of_nonneg_left (by linarith) hdiv
    constructor
    · by_cases h1 : max (app_entireVoyageCons df - app_maxWarrantedFo df cp) 0 = 0
      · exact Or.inl h1
      · exact Or.inr (max_eq_right (by linarith [pos_of_max_zero_ne_zero _ h1]))
    · have hMt : app_minTime df cp ≤ app_maxTime df cp := by
        rw [app_minTime, app_maxTime]
        gcongr
        all_goals first
        | exact htd
        | linarith
      by_cases h1 : max (app_minTime df cp - app_timeAtGoodSpd df cp) 0 = 0
      · exact Or.inl h1
      · exact Or.inr (max_eq_right (by linarith [pos_of_max_zero_ne_zero _ h1]))

/-- C7 (witness): the amended at-most-one properties on a concrete completed
run (which shows an overconsumption of 13 MT and a saving of 0). -/
theorem C7_witness :
    ((cps_results tblA terms13 wdA []).fuel_overconsumption = 0 ∨
      (cps_results tblA terms13 wdA []).fuel_saving = 0) ∧
    ((cps_results tblA terms13 wdA []).time_gained = 0 ∨
      (cps_results tblA terms13 wdA []).time_lost = 0) := by
  have h : process_calculation_data tblA terms13 wdA [] =
      Except.ok (cps_results tblA terms13 wdA []) := by
    rw [process_calculation_data, if_pos (tblA_divSafe terms13 rfl)]
  exact C7_amended.1 tblA terms13 wdA [] _ h
    (by simp only [cps_results]; rw [tblA_totalDistance]; norm_num)
    (by norm_num [terms13, warrantedSpeedOf, speed_tolerance_knots])
    (by norm_num [terms13, warrantedConsumptionOf])

/-- C8 (counterexample): on a table whose wave-height column is entirely
absent, c.CPsuite.py skips the wind AND wave checks (line 176 requires both
columns): the record with a present wind force of 9 against a Beaufort limit
of 5 is classified GOOD, not BAD — refuting both the claimed biconditional
and its "triggers BAD even when the wave-height field is absent" clause for
column-level absence. -/
theorem C8_counterexample :
    valGT (getVal row8 "wind_force") wdA.beaufort_scale = true ∧
    row8 ∈ cps_goodDays tbl8b wdA [] ∧
    row8 ∉ cps_badDays tbl8b wdA [] := by
  refine ⟨?_, ?_, ?_⟩
  · rw [show getVal row8 "wind_force" = Val.num 9 from rfl,
      show wdA.beaufort_scale = 5 from rfl]
    simp only [valGT, decide_eq_true_eq]
    norm_num
  · rw [show cps_goodDays tbl8b wdA [] = [row8] from rfl]
    exact List.mem_singleton.mpr rfl
  · rw [show cps_badDays tbl8b wdA [] = ([] : List Row) from rfl]
    exact List.not_mem_nil row8

/-- C8 (amended): on tables with no precomputed weather-status column, when
the wind-force, wave-height and current columns are all present the
classifier defaults to GOOD and marks a surviving record BAD exactly when
its wind force exceeds the Beaufort limit, or its wave height exceeds the
wave limit, or the current factor is enabled and its current exceeds 1.0 kn;
a missing wind/wave/current cell never triggers the comparison (`valGT` of a
missing cell is false). But when the wind-force and wave-height columns are
not BOTH present in the table, the wind/wave check is skipped entirely and a
record is BAD only through the current check — a present above-limit wind
force then does not trigger BAD. -/
theorem C8_amended :
    (∀ (df : Table) (wd : WeatherDef) (ep : List ExclusionPeriod) (r : Row),
      cps_weatherCol df = none →
      df.cols.contains "wind_force" = true →
      df.cols.contains "wave_height" = true →
      df.cols.contains "current" = true →
      (r ∈ cps_badDays df wd ep ↔ r ∈ cps_rows df ep ∧
        (valGT (getVal r "wind_force") wd.beaufort_scale = true ∨
         valGT (getVal r "wave_height") wd.wave_height = true ∨
         (wd.include_current = true ∧ valGT (getVal r "current") 1 = true))) ∧
      (r ∈ cps_goodDays df wd ep ↔ r ∈ cps_rows df ep ∧
        ¬(valGT (getVal r "wind_force") wd.beaufort_scale = true ∨
          valGT (getVal r "wave_height") wd.wave_height = true ∨
          (wd.include_current = true ∧ valGT (getVal r "current") 1 = true)))) ∧
    (∀ q : ℚ, valGT Val.missing q = false) ∧
    (∀ (df : Table) (wd : WeatherDef) (ep : List ExclusionPeriod) (r : Row),
      cps_weatherCol df = none →
      (df.cols.contains "wind_force" && df.cols.contains "wave_height") = false →
      (r ∈ cps_badDays df wd ep ↔ r ∈ cps_rows df ep ∧
        (wd.include_current = true ∧ df.cols.contains "current" = true ∧
         valGT (getVal r "current") 1 = true))) := by
  refine ⟨?_, fun q => rfl, ?_⟩
  · intro df wd ep r hwcol hwf hwh hcu
    have hgw : ∀ rr : Row, cps_isGoodWeather df wd rr = true ↔
        ¬(valGT (getVal rr "wind_force") wd.beaufort_scale = true ∨
          valGT (getVal rr "wave_height") wd.wave_height = true ∨
          (wd.include_current = true ∧ valGT (getVal rr "current") 1 = true)) := by
      intro rr
      rw [cps_isGoodWeather]
      simp only [hwf, hwh, hcu, Bool.and_self, Bool.and_true, if_true]
      cases hic : wd.include_current <;> simp [and_assoc]
    have hflip : ∀ rr : Row, (!cps_isGoodWeather df wd rr) = true ↔
        ¬(cps_isGoodWeather df wd rr = true) := by
      intro rr
      cases cps_isGoodWeather df wd rr <;> simp
    constructor
    · simp only [cps_badDays, hwcol]
      rw [List.mem_filter]
      exact and_congr_right fun _ => by rw [hflip r, hgw r, not_not]
    · simp only [cps_goodDays, hwcol]
      rw [List.mem_filter]
      exact and_congr_right fun _ => hgw r
  · intro df wd ep r hwcol hww
    have hgw : ∀ rr : Row, cps_isGoodWeather df wd rr = true ↔
        ¬(wd.include_current = true ∧ df.cols.contains "current" = true ∧
          valGT (getVal rr "current") 1 = true) := by
      intro rr
      rw [cps_isGoodWeather]
      simp only [hww, Bool.false_eq_true, if_false]
      cases hic : wd.include_current <;> cases hcc : df.cols.contains "current" <;>
        simp [hic, hcc]
    have hflip : ∀ rr : Row, (!cps_isGoodWeather df wd rr) = true ↔
        ¬(cps_isGoodWeather df wd rr = true) := by
      intro rr
      cases cps_isGoodWeather df wd rr <;> simp
    simp only [cps_badDays, hwcol]
    rw [List.mem_filter]
    exact and_congr_right fun _ => by rw [hflip r, hgw r, not_not]

/-- C8 (witness): with all three threshold columns present in the table, the
record of `tbl8` — wind force 9 against a Beaufort limit of 5, wave-height
and current cells absent from the record itself — is classified BAD: a
present above-limit wind triggers BAD when the wave-height CELL (as opposed
to its column) is the thing that is missing. -/
theorem C8_witness : row8 ∈ cps_badDays tbl8 wdA [] := by
  refine ((C8_amended.1 tbl8 wdA [] row8 rfl rfl rfl rfl).1).mpr ⟨?_, Or.inl ?_⟩
  · rw [show cps_rows tbl8 [] = [row8] from rfl]
    exact List.mem_singleton.mpr rfl
  · rw [show getVal row8 "wind_force" = Val.num 9 from rfl,
      show wdA.beaufort_scale = 5 from rfl]
    simp only [valGT, decide_eq_true_eq]
    norm_num

/-- C9: whenever the table has a `datetime` column and the exclusion list is
non-empty, the period filter keeps exactly the event-filtered records whose
timestamp does NOT lie in the closed interval `[start, stop]` of any
exclusion period — union semantics over the periods, and no other record is
dropped by the exclusion stage. -/
theorem C9_theorem (df : Table) (ep : List ExclusionPeriod) (r : Row)
    (hdt : df.cols.contains "datetime" = true) (_hep : ep ≠ []) :
    r ∈ cps_filteredRows df ep ↔
      r ∈ cps_eventRows df ∧
      ¬∃ p ∈ ep, ∃ t : ℚ, getVal r "datetime" = Val.num t ∧
        p.start ≤ t ∧ t ≤ p.stop := by
  rw [cps_filteredRows, if_pos hdt, List.mem_filter]
  refine and_congr_right fun _ => ⟨fun hb hexists => ?_, fun hne => ?_⟩
  · rw [← excludedBy_eq_true_iff] at hexists
    rw [hexists] at hb
    exact absurd hb (by simp)
  · cases hex : excludedBy ep (getVal r "datetime") with
    | false => rfl
    | true => exact absurd ((excludedBy_eq_true_iff ep _).mp hex) hne

/-- C9 (witness): the record of `tbl9` at instant 5 is dropped by the single
exclusion period [1, 10]. -/
theorem C9_witness : row9 ∉ cps_filteredRows tbl9 ep9 := by
  intro hmem
  have h := (C9_theorem tbl9 ep9 row9 rfl (by simp [ep9])).mp hmem
  exact h.2 ⟨{ start := 1, stop := 10 }, by simp [ep9], 5, rfl, by norm_num, by norm_num⟩

/-- C10: the weather split is a partition in both variants — the GOOD, BAD
and neither-classified records (status string neither label exactly) have
counts summing to the surviving count, and for every column the three class
sums add up to the voyage total, so neither-records are excluded from both
weather-class aggregates yet retained in the totals. -/
theorem C10_theorem :
    (∀ (df : Table) (wd : WeatherDef) (ep : List ExclusionPeriod) (wc : String),
      cps_weatherCol df = some wc →
      ((cps_goodDays df wd ep).length + (cps_badDays df wd ep).length +
        ((cps_rows df ep).filter (fun r =>
          !valEqStr (getVal r wc) "GOOD WEATHER DAY" &&
          !valEqStr (getVal r wc) "BAD WEATHER DAY")).length = (cps_rows df ep).length) ∧
      (∀ o : Option String,
        sumCol (cps_goodDays df wd ep) o + sumCol (cps_badDays df wd ep) o +
          sumCol ((cps_rows df ep).filter (fun r =>
            !valEqStr (getVal r wc) "GOOD WEATHER DAY" &&
            !valEqStr (getVal r wc) "BAD WEATHER DAY")) o = sumCol (cps_rows df ep) o)) ∧
    (∀ df : Table,
      ((app_goodDays df).length + (app_badDays df).length +
        ((app_rows df).filter (fun r =>
          !valEqStr (getVal r "day_status") "GOOD WEATHER DAY" &&
          !valEqStr (getVal r "day_status") "BAD WEATHER DAY")).length =
        (app_rows df).length) ∧
      (∀ o : Option String,
        sumCol (app_goodDays df) o + sumCol (app_badDays df) o +
          sumCol ((app_rows df).filter (fun r =>
            !valEqStr (getVal r "day_status") "GOOD WEATHER DAY" &&
            !valEqStr (getVal r "day_status") "BAD WEATHER DAY")) o =
          sumCol (app_rows df) o)) := by
  constructor
  · intro df wd ep wc hwc
    constructor
    · simp only [cps_goodDays, cps_badDays, hwc]
      exact filter_length_partition _ _ _ (fun r => weather_labels_disjoint (getVal r wc))
    · intro o
      cases o with
      | none => simp [sumCol]
      | some cn =>
        simp only [cps_goodDays, cps_badDays, hwc, sumCol]
        exact filter_sum_partition _ _ _ _ (fun r => weather_labels_disjoint (getVal r wc))
  · intro df
    constructor
    · simp only [app_goodDays, app_badDays]
      exact filter_length_partition _ _ _
        (fun r => weather_labels_disjoint (getVal r "day_status"))
    · intro o
      cases o with
      | none => simp [sumCol]
      | some cn =>
        simp only [app_goodDays, app_badDays, sumCol]
        exact filter_sum_partition _ _ _ _
          (fun r => weather_labels_disjoint (getVal r "day_status"))

/-- C10 (witness): the count partition at the concrete `tbl4` run, whose
single record (its status label destroyed by the numeric coercion) lands in
the neither class: 0 + 0 + 1 = 1. -/
theorem C10_witness :
    (cps_goodDays tbl4 wdA []).length + (cps_badDays tbl4 wdA []).length +
      ((cps_rows tbl4 []).filter (fun r =>
        !valEqStr (getVal r "day_status") "GOOD WEATHER DAY" &&
        !valEqStr (getVal r "day_status") "BAD WEATHER DAY")).length =
      (cps_rows tbl4 []).length :=
  (C10_theorem.1 tbl4 wdA [] "day_status" rfl).1

